import Mathlib

/-!
Verification development for the worldiety/ioutil binary codec.

The Go source is shallowly embedded: byte buffers and streams become
`List Nat` whose elements are byte values (Go's `byte` type guarantees
values below 256, so the disjoint bitwise-or operations of the source are
written as additions of non-overlapping byte fields, and Go's `byte(x)`
conversion is written `x % 2^8`); machine-integer casts are explicit
explicit `%` (Euclidean modulus) operations; Go functions that can `panic` return `Option`.
Out-of-bounds buffer access is a precondition violation in the source
(a Go slice-bounds panic); reads are modelled with `List.getD` and writes
with `List.set`, and the theorems carry explicit in-bounds hypotheses
where the buffer contents matter.
-/

/-! ## byteorder.go: the two ByteOrder implementations

Each function mirrors one method of the unexported `littleEndian` /
`bigEndian` types.  A `Put` method mutates the caller's slice in Go; here
it returns the updated list. -/

namespace littleEndian

def Uint16 (b : List Nat) : Nat :=
  b.getD 0 0 + b.getD 1 0 * 2^8

def Uint24 (b : List Nat) : Nat :=
  b.getD 0 0 + b.getD 1 0 * 2^8 + b.getD 2 0 * 2^16

def Uint32 (b : List Nat) : Nat :=
  b.getD 0 0 + b.getD 1 0 * 2^8 + b.getD 2 0 * 2^16 + b.getD 3 0 * 2^24

def Uint40 (b : List Nat) : Nat :=
  b.getD 0 0 + b.getD 1 0 * 2^8 + b.getD 2 0 * 2^16 + b.getD 3 0 * 2^24 +
    b.getD 4 0 * 2^32

def Uint48 (b : List Nat) : Nat :=
  b.getD 0 0 + b.getD 1 0 * 2^8 + b.getD 2 0 * 2^16 + b.getD 3 0 * 2^24 +
    b.getD 4 0 * 2^32 + b.getD 5 0 * 2^40

def Uint56 (b : List Nat) : Nat :=
  b.getD 0 0 + b.getD 1 0 * 2^8 + b.getD 2 0 * 2^16 + b.getD 3 0 * 2^24 +
    b.getD 4 0 * 2^32 + b.getD 5 0 * 2^40 + b.getD 6 0 * 2^48

def Uint64 (b : List Nat) : Nat :=
  b.getD 0 0 + b.getD 1 0 * 2^8 + b.getD 2 0 * 2^16 + b.getD 3 0 * 2^24 +
    b.getD 4 0 * 2^32 + b.getD 5 0 * 2^40 + b.getD 6 0 * 2^48 + b.getD 7 0 * 2^56

def PutUint16 (b : List Nat) (v : Nat) : List Nat :=
  ((b.set 0 (v % 2^8)).set 1 (v / 2^8 % 2^8))

def PutUint24 (b : List Nat) (v : Nat) : List Nat :=
  (((b.set 0 (v % 2^8)).set 1 (v / 2^8 % 2^8)).set 2 (v / 2^16 % 2^8))

def PutUint32 (b : List Nat) (v : Nat) : List Nat :=
  ((((b.set 0 (v % 2^8)).set 1 (v / 2^8 % 2^8)).set 2 (v / 2^16 % 2^8)).set 3
    (v / 2^24 % 2^8))

def PutUint40 (b : List Nat) (v : Nat) : List Nat :=
  (((((b.set 0 (v % 2^8)).set 1 (v / 2^8 % 2^8)).set 2 (v / 2^16 % 2^8)).set 3
    (v / 2^24 % 2^8)).set 4 (v / 2^32 % 2^8))

def PutUint48 (b : List Nat) (v : Nat) : List Nat :=
  ((((((b.set 0 (v % 2^8)).set 1 (v / 2^8 % 2^8)).set 2 (v / 2^16 % 2^8)).set 3
    (v / 2^24 % 2^8)).set 4 (v / 2^32 % 2^8)).set 5 (v / 2^40 % 2^8))

def PutUint56 (b : List Nat) (v : Nat) : List Nat :=
  (((((((b.set 0 (v % 2^8)).set 1 (v / 2^8 % 2^8)).set 2 (v / 2^16 % 2^8)).set 3
    (v / 2^24 % 2^8)).set 4 (v / 2^32 % 2^8)).set 5 (v / 2^40 % 2^8)).set 6
    (v / 2^48 % 2^8))

def PutUint64 (b : List Nat) (v : Nat) : List Nat :=
  ((((((((b.set 0 (v % 2^8)).set 1 (v / 2^8 % 2^8)).set 2 (v / 2^16 % 2^8)).set 3
    (v / 2^24 % 2^8)).set 4 (v / 2^32 % 2^8)).set 5 (v / 2^40 % 2^8)).set 6
    (v / 2^48 % 2^8)).set 7 (v / 2^56 % 2^8))

end littleEndian

namespace bigEndian

def Uint16 (b : List Nat) : Nat :=
  b.getD 1 0 + b.getD 0 0 * 2^8

def Uint24 (b : List Nat) : Nat :=
  b.getD 2 0 + b.getD 1 0 * 2^8 + b.getD 0 0 * 2^16

def Uint32 (b : List Nat) : Nat :=
  b.getD 3 0 + b.getD 2 0 * 2^8 + b.getD 1 0 * 2^16 + b.getD 0 0 * 2^24

def Uint40 (b : List Nat) : Nat :=
  b.getD 4 0 + b.getD 3 0 * 2^8 + b.getD 2 0 * 2^16 + b.getD 1 0 * 2^24 +
    b.getD 0 0 * 2^32

def Uint48 (b : List Nat) : Nat :=
  b.getD 5 0 + b.getD 4 0 * 2^8 + b.getD 3 0 * 2^16 + b.getD 2 0 * 2^24 +
    b.getD 1 0 * 2^32 + b.getD 0 0 * 2^40

def Uint56 (b : List Nat) : Nat :=
  b.getD 6 0 + b.getD 5 0 * 2^8 + b.getD 4 0 * 2^16 + b.getD 3 0 * 2^24 +
    b.getD 2 0 * 2^32 + b.getD 1 0 * 2^40 + b.getD 0 0 * 2^48

def Uint64 (b : List Nat) : Nat :=
  b.getD 7 0 + b.getD 6 0 * 2^8 + b.getD 5 0 * 2^16 + b.getD 4 0 * 2^24 +
    b.getD 3 0 * 2^32 + b.getD 2 0 * 2^40 + b.getD 1 0 * 2^48 + b.getD 0 0 * 2^56

def PutUint16 (b : List Nat) (v : Nat) : List Nat :=
  ((b.set 0 (v / 2^8 % 2^8)).set 1 (v % 2^8))

def PutUint24 (b : List Nat) (v : Nat) : List Nat :=
  (((b.set 0 (v / 2^16 % 2^8)).set 1 (v / 2^8 % 2^8)).set 2 (v % 2^8))

def PutUint32 (b : List Nat) (v : Nat) : List Nat :=
  ((((b.set 0 (v / 2^24 % 2^8)).set 1 (v / 2^16 % 2^8)).set 2
    (v / 2^8 % 2^8)).set 3 (v % 2^8))

def PutUint40 (b : List Nat) (v : Nat) : List Nat :=
  (((((b.set 0 (v / 2^32 % 2^8)).set 1 (v / 2^24 % 2^8)).set 2
    (v / 2^16 % 2^8)).set 3 (v / 2^8 % 2^8)).set 4 (v % 2^8))

def PutUint48 (b : List Nat) (v : Nat) : List Nat :=
  ((((((b.set 0 (v / 2^40 % 2^8)).set 1 (v / 2^32 % 2^8)).set 2
    (v / 2^24 % 2^8)).set 3 (v / 2^16 % 2^8)).set 4 (v / 2^8 % 2^8)).set 5
    (v % 2^8))

def PutUint56 (b : List Nat) (v : Nat) : List Nat :=
  (((((((b.set 0 (v / 2^48 % 2^8)).set 1 (v / 2^40 % 2^8)).set 2
    (v / 2^32 % 2^8)).set 3 (v / 2^24 % 2^8)).set 4 (v / 2^16 % 2^8)).set 5
    (v / 2^8 % 2^8)).set 6 (v % 2^8))

def PutUint64 (b : List Nat) (v : Nat) : List Nat :=
  ((((((((b.set 0 (v / 2^56 % 2^8)).set 1 (v / 2^48 % 2^8)).set 2
    (v / 2^40 % 2^8)).set 3 (v / 2^32 % 2^8)).set 4 (v / 2^24 % 2^8)).set 5
    (v / 2^16 % 2^8)).set 6 (v / 2^8 % 2^8)).set 7 (v % 2^8))

end bigEndian

/-! ## Wire-type tags (`Type` in the source, a byte enumeration)

`Type` is a Lean keyword, so the tag type is simply `Nat`; the constants
keep their source names and values. -/

abbrev TUint8 : Nat := 1
abbrev TUint16 : Nat := 2
abbrev TUint24 : Nat := 3
abbrev TUint32 : Nat := 4
abbrev TUint40 : Nat := 5
abbrev TUint48 : Nat := 6
abbrev TUint56 : Nat := 7
abbrev TUint64 : Nat := 8
abbrev TInt8 : Nat := 9
abbrev TInt16 : Nat := 10
abbrev TInt24 : Nat := 11
abbrev TInt32 : Nat := 12
abbrev TInt40 : Nat := 13
abbrev TInt48 : Nat := 14
abbrev TInt56 : Nat := 15
abbrev TInt64 : Nat := 16
abbrev TBlob8 : Nat := 17
abbrev TBlob16 : Nat := 18
abbrev TBlob24 : Nat := 19
abbrev TBlob32 : Nat := 20
abbrev TString8 : Nat := 21
abbrev TString16 : Nat := 22
abbrev TString24 : Nat := 23
abbrev TString32 : Nat := 24
abbrev TFloat32 : Nat := 25
abbrev TFloat64 : Nat := 26
abbrev TComplex64 : Nat := 27
abbrev TComplex128 : Nat := 28

/-! ## Integer bounds (int.go; the 48/56-bit constants are pinned by the
repository's own constant tests) -/

abbrev MaxUint8 : Nat := 255
abbrev MaxUint16 : Nat := 65535
abbrev MaxUint24 : Nat := 16777215
abbrev MaxUint32 : Nat := 4294967295
abbrev MaxUint40 : Nat := 1099511627775
abbrev MaxUint48 : Nat := 281474976710655
abbrev MaxUint56 : Nat := 72057594037927935
abbrev MaxUint64 : Nat := 18446744073709551615

abbrev MaxInt8 : Int := 127
abbrev MinInt8 : Int := -128
abbrev MaxInt16 : Int := 32767
abbrev MinInt16 : Int := -32768
abbrev MaxInt24 : Int := 8388607
abbrev MinInt24 : Int := -8388608
abbrev MaxInt32 : Int := 2147483647
abbrev MinInt32 : Int := -2147483648
abbrev MaxInt40 : Int := 549755813887
abbrev MinInt40 : Int := -549755813888
abbrev MaxInt48 : Int := 140737488355327
abbrev MinInt48 : Int := -140737488355328
abbrev MaxInt56 : Int := 36028797018963967
abbrev MinInt56 : Int := -36028797018963968
abbrev MaxInt64 : Int := 9223372036854775807
abbrev MinInt64 : Int := -9223372036854775808

/-! ## Reinterpreting conversions

Go's conversion from an unsigned word to the same-width signed type keeps
the bit pattern; on a `Nat` representative below `2^w` this is the usual
two's-complement reading. -/

def toInt8 (u : Nat) : Int := if u < 2^7 then (u : Int) else (u : Int) - 2^8

def toInt16 (u : Nat) : Int := if u < 2^15 then (u : Int) else (u : Int) - 2^16

def toInt32 (u : Nat) : Int := if u < 2^31 then (u : Int) else (u : Int) - 2^32

def toInt64 (u : Nat) : Int := if u < 2^63 then (u : Int) else (u : Int) - 2^64

/-- Overwrite the bytes of `l` starting at position `p` with the bytes of
`v` (the effect of Go's `copy` into the slice `l[p : p+len(v)]`). -/
def storeAt : List Nat → Nat → List Nat → List Nat
  | l, _, [] => l
  | l, p, a :: rest => storeAt (l.set p a) (p + 1) rest

/-! ## lebuffer.go: LittleEndianBuffer

A cursor-addressed in-memory byte array.  Go methods mutate the receiver;
here a read returns `value × buffer` and a write returns the buffer. -/

structure LittleEndianBuffer where
  Bytes : List Nat
  Pos : Nat
deriving DecidableEq, Repr

namespace LittleEndianBuffer

def ReadUint8 (f : LittleEndianBuffer) : Nat × LittleEndianBuffer :=
  (f.Bytes.getD f.Pos 0, { f with Pos := f.Pos + 1 })

def WriteUint8 (f : LittleEndianBuffer) (v : Nat) : LittleEndianBuffer :=
  { f with Bytes := f.Bytes.set f.Pos v, Pos := f.Pos + 1 }

def ReadUint16 (f : LittleEndianBuffer) : Nat × LittleEndianBuffer :=
  (f.Bytes.getD f.Pos 0 + f.Bytes.getD (f.Pos + 1) 0 * 2^8,
    { f with Pos := f.Pos + 2 })

def WriteUint16 (f : LittleEndianBuffer) (v : Nat) : LittleEndianBuffer :=
  { f with
    Bytes := (f.Bytes.set f.Pos (v % 2^8)).set (f.Pos + 1) (v / 2^8 % 2^8),
    Pos := f.Pos + 2 }

def ReadUint24 (f : LittleEndianBuffer) : Nat × LittleEndianBuffer :=
  (f.Bytes.getD f.Pos 0 + f.Bytes.getD (f.Pos + 1) 0 * 2^8 +
      f.Bytes.getD (f.Pos + 2) 0 * 2^16,
    { f with Pos := f.Pos + 3 })

def WriteUint24 (f : LittleEndianBuffer) (v : Nat) : LittleEndianBuffer :=
  { f with
    Bytes := ((f.Bytes.set f.Pos (v % 2^8)).set (f.Pos + 1) (v / 2^8 % 2^8)).set
      (f.Pos + 2) (v / 2^16 % 2^8),
    Pos := f.Pos + 3 }

def ReadUint32 (f : LittleEndianBuffer) : Nat × LittleEndianBuffer :=
  (f.Bytes.getD f.Pos 0 + f.Bytes.getD (f.Pos + 1) 0 * 2^8 +
      f.Bytes.getD (f.Pos + 2) 0 * 2^16 + f.Bytes.getD (f.Pos + 3) 0 * 2^24,
    { f with Pos := f.Pos + 4 })

def WriteUint32 (f : LittleEndianBuffer) (v : Nat) : LittleEndianBuffer :=
  { f with
    Bytes := (((f.Bytes.set f.Pos (v % 2^8)).set (f.Pos + 1) (v / 2^8 % 2^8)).set
      (f.Pos + 2) (v / 2^16 % 2^8)).set (f.Pos + 3) (v / 2^24 % 2^8),
    Pos := f.Pos + 4 }

def ReadUint40 (f : LittleEndianBuffer) : Nat × LittleEndianBuffer :=
  (f.Bytes.getD f.Pos 0 + f.Bytes.getD (f.Pos + 1) 0 * 2^8 +
      f.Bytes.getD (f.Pos + 2) 0 * 2^16 + f.Bytes.getD (f.Pos + 3) 0 * 2^24 +
      f.Bytes.getD (f.Pos + 4) 0 * 2^32,
    { f with Pos := f.Pos + 5 })

def WriteUint40 (f : LittleEndianBuffer) (v : Nat) : LittleEndianBuffer :=
  { f with
    Bytes := ((((f.Bytes.set f.Pos (v % 2^8)).set (f.Pos + 1) (v / 2^8 % 2^8)).set
      (f.Pos + 2) (v / 2^16 % 2^8)).set (f.Pos + 3) (v / 2^24 % 2^8)).set
      (f.Pos + 4) (v / 2^32 % 2^8),
    Pos := f.Pos + 5 }

def ReadUint48 (f : LittleEndianBuffer) : Nat × LittleEndianBuffer :=
  (f.Bytes.getD f.Pos 0 + f.Bytes.getD (f.Pos + 1) 0 * 2^8 +
      f.Bytes.getD (f.Pos + 2) 0 * 2^16 + f.Bytes.getD (f.Pos + 3) 0 * 2^24 +
      f.Bytes.getD (f.Pos + 4) 0 * 2^32 + f.Bytes.getD (f.Pos + 5) 0 * 2^40,
    { f with Pos := f.Pos + 6 })

def WriteUint48 (f : LittleEndianBuffer) (v : Nat) : LittleEndianBuffer :=
  { f with
    Bytes := (((((f.Bytes.set f.Pos (v % 2^8)).set (f.Pos + 1) (v / 2^8 % 2^8)).set
      (f.Pos + 2) (v / 2^16 % 2^8)).set (f.Pos + 3) (v / 2^24 % 2^8)).set
      (f.Pos + 4) (v / 2^32 % 2^8)).set (f.Pos + 5) (v / 2^40 % 2^8),
    Pos := f.Pos + 6 }

def ReadUint56 (f : LittleEndianBuffer) : Nat × LittleEndianBuffer :=
  (f.Bytes.getD f.Pos 0 + f.Bytes.getD (f.Pos + 1) 0 * 2^8 +
      f.Bytes.getD (f.Pos + 2) 0 * 2^16 + f.Bytes.getD (f.Pos + 3) 0 * 2^24 +
      f.Bytes.getD (f.Pos + 4) 0 * 2^32 + f.Bytes.getD (f.Pos + 5) 0 * 2^40 +
      f.Bytes.getD (f.Pos + 6) 0 * 2^48,
    { f with Pos := f.Pos + 7 })

def WriteUint56 (f : LittleEndianBuffer) (v : Nat) : LittleEndianBuffer :=
  { f with
    Bytes := ((((((f.Bytes.set f.Pos (v % 2^8)).set (f.Pos + 1) (v / 2^8 % 2^8)).set
      (f.Pos + 2) (v / 2^16 % 2^8)).set (f.Pos + 3) (v / 2^24 % 2^8)).set
      (f.Pos + 4) (v / 2^32 % 2^8)).set (f.Pos + 5) (v / 2^40 % 2^8)).set
      (f.Pos + 6) (v / 2^48 % 2^8),
    Pos := f.Pos + 7 }

def ReadUint64 (f : LittleEndianBuffer) : Nat × LittleEndianBuffer :=
  (f.Bytes.getD f.Pos 0 + f.Bytes.getD (f.Pos + 1) 0 * 2^8 +
      f.Bytes.getD (f.Pos + 2) 0 * 2^16 + f.Bytes.getD (f.Pos + 3) 0 * 2^24 +
      f.Bytes.getD (f.Pos + 4) 0 * 2^32 + f.Bytes.getD (f.Pos + 5) 0 * 2^40 +
      f.Bytes.getD (f.Pos + 6) 0 * 2^48 + f.Bytes.getD (f.Pos + 7) 0 * 2^56,
    { f with Pos := f.Pos + 8 })

def WriteUint64 (f : LittleEndianBuffer) (v : Nat) : LittleEndianBuffer :=
  { f with
    Bytes := (((((((f.Bytes.set f.Pos (v % 2^8)).set (f.Pos + 1) (v / 2^8 % 2^8)).set
      (f.Pos + 2) (v / 2^16 % 2^8)).set (f.Pos + 3) (v / 2^24 % 2^8)).set
      (f.Pos + 4) (v / 2^32 % 2^8)).set (f.Pos + 5) (v / 2^40 % 2^8)).set
      (f.Pos + 6) (v / 2^48 % 2^8)).set (f.Pos + 7) (v / 2^56 % 2^8),
    Pos := f.Pos + 8 }

/-- WriteSlice copies the content of the given buffer into the destination
(at the cursor) and advances the cursor. -/
def WriteSlice (f : LittleEndianBuffer) (v : List Nat) : LittleEndianBuffer :=
  { f with Bytes := storeAt f.Bytes f.Pos v, Pos := f.Pos + v.length }

/-- ReadSlice reads fully into the given buffer `v`: it returns `v` with
its first `v.length` bytes overwritten by the bytes at the cursor. -/
def ReadSlice (f : LittleEndianBuffer) (v : List Nat) : List Nat × LittleEndianBuffer :=
  (storeAt v 0 ((f.Bytes.drop f.Pos).take v.length),
    { f with Pos := f.Pos + v.length })

/-- ReadBlob8 reads an 8-bit length prefix, then that many bytes into the
prefix of the caller-supplied buffer `v`; returns the decoded length, the
updated `v` and the advanced buffer. -/
def ReadBlob8 (f : LittleEndianBuffer) (v : List Nat) :
    Nat × List Nat × LittleEndianBuffer :=
  let (vLen, f1) := f.ReadUint8
  let (vBuf, f2) := f1.ReadSlice (v.take vLen)
  (vLen, vBuf ++ v.drop vLen, f2)

/-- WriteBlob8 writes up to 255 bytes; a longer slice is silently
truncated to its first 255 bytes. -/
def WriteBlob8 (f : LittleEndianBuffer) (v : List Nat) : LittleEndianBuffer :=
  let vLen := if v.length > MaxUint8 then MaxUint8 else v.length
  (f.WriteUint8 (vLen % 2^8)).WriteSlice (v.take vLen)

def ReadBlob16 (f : LittleEndianBuffer) (v : List Nat) :
    Nat × List Nat × LittleEndianBuffer :=
  let (vLen, f1) := f.ReadUint16
  let (vBuf, f2) := f1.ReadSlice (v.take vLen)
  (vLen, vBuf ++ v.drop vLen, f2)

/-- WriteBlob16 writes up to 65535 bytes; a longer slice is silently
truncated. -/
def WriteBlob16 (f : LittleEndianBuffer) (v : List Nat) : LittleEndianBuffer :=
  let vLen := if v.length > MaxUint16 then MaxUint16 else v.length
  (f.WriteUint16 (vLen % 2^16)).WriteSlice (v.take vLen)

def ReadBlob24 (f : LittleEndianBuffer) (v : List Nat) :
    Nat × List Nat × LittleEndianBuffer :=
  let (vLen, f1) := f.ReadUint24
  let (vBuf, f2) := f1.ReadSlice (v.take vLen)
  (vLen, vBuf ++ v.drop vLen, f2)

/-- WriteBlob24 writes up to 16777215 bytes; a longer slice is silently
truncated. -/
def WriteBlob24 (f : LittleEndianBuffer) (v : List Nat) : LittleEndianBuffer :=
  let vLen := if v.length > MaxUint24 then MaxUint24 else v.length
  (f.WriteUint24 (vLen % 2^32)).WriteSlice (v.take vLen)

def ReadBlob32 (f : LittleEndianBuffer) (v : List Nat) :
    Nat × List Nat × LittleEndianBuffer :=
  let (vLen, f1) := f.ReadUint32
  let (vBuf, f2) := f1.ReadSlice (v.take vLen)
  (vLen, vBuf ++ v.drop vLen, f2)

/-- WriteBlob32 writes up to 4294967295 bytes; a longer slice is silently
truncated. -/
def WriteBlob32 (f : LittleEndianBuffer) (v : List Nat) : LittleEndianBuffer :=
  let vLen := if v.length > MaxUint32 then MaxUint32 else v.length
  (f.WriteUint32 (vLen % 2^32)).WriteSlice (v.take vLen)

/-- WriteString8 reinterprets the string as its byte slice (zero-copy in
the source) and delegates to `WriteBlob8`; strings are byte lists here. -/
def WriteString8 (f : LittleEndianBuffer) (v : List Nat) : LittleEndianBuffer :=
  f.WriteBlob8 v

/-- ReadString8: the source reads the blob into `strBuffer` and then
returns `*(*string)(unsafe.Pointer(&vLen))` — it reinterprets the address
of the local `int` variable `vLen` as a string header, not the scratch
buffer.  That reinterpreted value has no representation here; the model
returns the well-defined components the function computes: the decoded
length, the updated scratch buffer and the advanced buffer. -/
def ReadString8 (f : LittleEndianBuffer) (strBuffer : List Nat) :
    Nat × List Nat × LittleEndianBuffer :=
  f.ReadBlob8 strBuffer

def WriteString16 (f : LittleEndianBuffer) (v : List Nat) : LittleEndianBuffer :=
  f.WriteBlob16 v

/-- ReadString16: same `unsafe.Pointer(&vLen)` reinterpretation as
`ReadString8`; the model returns the well-defined components. -/
def ReadString16 (f : LittleEndianBuffer) (strBuffer : List Nat) :
    Nat × List Nat × LittleEndianBuffer :=
  f.ReadBlob16 strBuffer

def WriteString24 (f : LittleEndianBuffer) (v : List Nat) : LittleEndianBuffer :=
  f.WriteBlob24 v

/-- ReadString24: same `unsafe.Pointer(&vLen)` reinterpretation as
`ReadString8`; the model returns the well-defined components. -/
def ReadString24 (f : LittleEndianBuffer) (strBuffer : List Nat) :
    Nat × List Nat × LittleEndianBuffer :=
  f.ReadBlob24 strBuffer

def WriteString32 (f : LittleEndianBuffer) (v : List Nat) : LittleEndianBuffer :=
  f.WriteBlob32 v

/-- ReadString32: same `unsafe.Pointer(&vLen)` reinterpretation as
`ReadString8`; the model returns the well-defined components. -/
def ReadString32 (f : LittleEndianBuffer) (strBuffer : List Nat) :
    Nat × List Nat × LittleEndianBuffer :=
  f.ReadBlob32 strBuffer

/-- WriteType writes the type tag as uint8. -/
def WriteType (f : LittleEndianBuffer) (typ : Nat) : LittleEndianBuffer :=
  f.WriteUint8 (typ % 2^8)

def ReadType (f : LittleEndianBuffer) : Nat × LittleEndianBuffer :=
  f.ReadUint8

/-- ReadInt reads any number into an integer, switching on the type tag.
The two float tags call IEEE-754 conversions whose semantics are outside
this integer model, and the default case panics; both map to `none`. -/
def ReadInt (f : LittleEndianBuffer) : Option (Int × LittleEndianBuffer) :=
  let (typ, f1) := f.ReadType
  if typ = TUint8 then let (u, f2) := f1.ReadUint8; some ((u : Int), f2)
  else if typ = TInt8 then let (u, f2) := f1.ReadUint8; some (toInt8 u, f2)
  else if typ = TUint16 then let (u, f2) := f1.ReadUint16; some ((u : Int), f2)
  else if typ = TInt16 then let (u, f2) := f1.ReadUint16; some (toInt16 u, f2)
  else if typ = TUint24 then let (u, f2) := f1.ReadUint24; some ((u : Int), f2)
  else if typ = TInt24 then let (u, f2) := f1.ReadUint24; some (toInt32 u, f2)
  else if typ = TUint32 then let (u, f2) := f1.ReadUint32; some ((u : Int), f2)
  else if typ = TInt32 then let (u, f2) := f1.ReadUint32; some (toInt32 u, f2)
  else if typ = TUint40 then let (u, f2) := f1.ReadUint40; some ((u : Int), f2)
  else if typ = TInt40 then let (u, f2) := f1.ReadUint40; some (toInt64 u, f2)
  else if typ = TUint48 then let (u, f2) := f1.ReadUint48; some ((u : Int), f2)
  else if typ = TInt48 then let (u, f2) := f1.ReadUint48; some (toInt64 u, f2)
  else if typ = TUint56 then let (u, f2) := f1.ReadUint56; some ((u : Int), f2)
  else if typ = TInt56 then let (u, f2) := f1.ReadUint56; some (toInt64 u, f2)
  else if typ = TUint64 then let (u, f2) := f1.ReadUint64; some (toInt64 u, f2)
  else if typ = TInt64 then let (u, f2) := f1.ReadUint64; some (toInt64 u, f2)
  else none

/-- WriteInt inspects the value and chooses automatically between the
1-to-8-byte signed or unsigned representations, prefixed with a type tag;
Go's narrowing casts become explicit Euclidean `%` operations. -/
def WriteInt (f : LittleEndianBuffer) (v : Int) : LittleEndianBuffer :=
  if MinInt8 ≤ v ∧ v ≤ (MaxUint8 : Int) then
    ((if v > MaxInt8 then f.WriteType TUint8 else f.WriteType TInt8)).WriteUint8
      ((v % (2^8)).toNat)
  else if MinInt16 ≤ v ∧ v ≤ (MaxUint16 : Int) then
    ((if v > MaxInt16 then f.WriteType TUint16 else f.WriteType TInt16)).WriteUint16
      ((v % (2^16)).toNat)
  else if MinInt24 ≤ v ∧ v ≤ (MaxUint24 : Int) then
    ((if v > MaxInt24 then f.WriteType TUint24 else f.WriteType TInt24)).WriteUint24
      ((v % (2^32)).toNat)
  else if MinInt32 ≤ v ∧ v ≤ (MaxUint32 : Int) then
    ((if v > MaxInt32 then f.WriteType TUint32 else f.WriteType TInt32)).WriteUint32
      ((v % (2^32)).toNat)
  else if MinInt40 ≤ v ∧ v ≤ (MaxUint40 : Int) then
    ((if v > MaxInt40 then f.WriteType TUint40 else f.WriteType TInt40)).WriteUint40
      ((v % (2^64)).toNat)
  else if MinInt48 ≤ v ∧ v ≤ (MaxUint48 : Int) then
    ((if v > MaxInt48 then f.WriteType TUint48 else f.WriteType TInt48)).WriteUint48
      ((v % (2^64)).toNat)
  else if MinInt56 ≤ v ∧ v ≤ (MaxUint56 : Int) then
    ((if v > MaxInt56 then f.WriteType TUint56 else f.WriteType TInt56)).WriteUint56
      ((v % (2^64)).toNat)
  else
    (f.WriteType TInt64).WriteUint64 ((v % (2^64)).toNat)

/-- WriteString chooses between 1-, 2-, 3- and 4-byte length prefixes by
string length, writes the matching tag and delegates to the matching
string writer. -/
def WriteString (f : LittleEndianBuffer) (str : List Nat) : LittleEndianBuffer :=
  if str.length ≤ MaxUint8 then (f.WriteType TString8).WriteString8 str
  else if str.length ≤ MaxUint16 then (f.WriteType TString16).WriteString16 str
  else if str.length ≤ MaxUint24 then (f.WriteType TString24).WriteString24 str
  else (f.WriteType TString32).WriteString32 str

/-- ReadString dispatches on the tag to the matching string reader; the
default case panics (`none`).  As with `ReadString8`, the components
returned are the decoded length, the updated scratch buffer and the
advanced buffer. -/
def ReadString (f : LittleEndianBuffer) (strBuffer : List Nat) :
    Option (Nat × List Nat × LittleEndianBuffer) :=
  let (typ, f1) := f.ReadType
  if typ = TString8 then some (f1.ReadString8 strBuffer)
  else if typ = TString16 then some (f1.ReadString16 strBuffer)
  else if typ = TString24 then some (f1.ReadString24 strBuffer)
  else if typ = TString32 then some (f1.ReadString32 strBuffer)
  else none

/-- Drain moves the buffer position the right amount of bytes without
actually parsing the value; the result is the number of bytes skipped
(`Pos - oldPos` in the source).  The default case of the source switch —
reached among others by the 40-, 48- and 56-bit integer tags and the
complex tags — panics "not implemented"; it is `none` here. -/
def Drain (f : LittleEndianBuffer) (t : Nat) : Option (LittleEndianBuffer × Nat) :=
  if t = TInt8 ∨ t = TUint8 then
    some ({ f with Pos := f.Pos + 1 }, f.Pos + 1 - f.Pos)
  else if t = TInt16 ∨ t = TUint16 then
    some ({ f with Pos := f.Pos + 2 }, f.Pos + 2 - f.Pos)
  else if t = TInt24 ∨ t = TUint24 then
    some ({ f with Pos := f.Pos + 3 }, f.Pos + 3 - f.Pos)
  else if t = TInt32 ∨ t = TUint32 then
    some ({ f with Pos := f.Pos + 4 }, f.Pos + 4 - f.Pos)
  else if t = TInt64 ∨ t = TUint64 then
    some ({ f with Pos := f.Pos + 8 }, f.Pos + 8 - f.Pos)
  else if t = TString8 ∨ t = TBlob8 then
    let (vLen, f1) := f.ReadUint8
    some ({ f1 with Pos := f1.Pos + vLen }, f1.Pos + vLen - f.Pos)
  else if t = TString16 ∨ t = TBlob16 then
    let (vLen, f1) := f.ReadUint16
    some ({ f1 with Pos := f1.Pos + vLen }, f1.Pos + vLen - f.Pos)
  else if t = TString24 ∨ t = TBlob24 then
    let (vLen, f1) := f.ReadUint24
    some ({ f1 with Pos := f1.Pos + vLen }, f1.Pos + vLen - f.Pos)
  else if t = TString32 ∨ t = TBlob32 then
    let (vLen, f1) := f.ReadUint32
    some ({ f1 with Pos := f1.Pos + vLen }, f1.Pos + vLen - f.Pos)
  else if t = TFloat32 then
    some ({ f with Pos := f.Pos + 4 }, f.Pos + 4 - f.Pos)
  else if t = TFloat64 then
    some ({ f with Pos := f.Pos + 8 }, f.Pos + 8 - f.Pos)
  else none

end LittleEndianBuffer

/-- Type.IsValid from the tag enumeration file: a tag is valid when it
lies between TUint8 and TFloat64. -/
def TypeIsValid (d : Nat) : Bool :=
  decide (TUint8 ≤ d ∧ d ≤ TFloat64)

/-- Little-endian bytes of `u` at width `k` (used to phrase the claimed
wire format of the self-describing integer encoding). -/
def leBytes (k : Nat) (u : Nat) : List Nat :=
  match k with
  | 0 => []
  | Nat.succ k => u % 2^8 :: leBytes k (u / 2^8)

/-- Refinement specification for C2, following the claim's words: try the
widths 8, 16, 24, 32, 40, 48, 56, 64 bits in ascending order; at each
width tag signed when the value fits that width's signed range, else
unsigned when it is non-negative and fits that width's unsigned range,
else move on; the ladder terminates at width 64 for every int64.  The
emitted bytes are the chosen TypeTag followed by the value encoded
little-endian (two's complement) at the chosen width. -/
def specNarrowestIntBytes (v : Int) : List Nat :=
  if MinInt8 ≤ v ∧ v ≤ MaxInt8 then TInt8 :: leBytes 1 ((v % (2^8)).toNat)
  else if 0 ≤ v ∧ v ≤ (MaxUint8 : Int) then TUint8 :: leBytes 1 ((v % (2^8)).toNat)
  else if MinInt16 ≤ v ∧ v ≤ MaxInt16 then TInt16 :: leBytes 2 ((v % (2^16)).toNat)
  else if 0 ≤ v ∧ v ≤ (MaxUint16 : Int) then TUint16 :: leBytes 2 ((v % (2^16)).toNat)
  else if MinInt24 ≤ v ∧ v ≤ MaxInt24 then TInt24 :: leBytes 3 ((v % (2^24)).toNat)
  else if 0 ≤ v ∧ v ≤ (MaxUint24 : Int) then TUint24 :: leBytes 3 ((v % (2^24)).toNat)
  else if MinInt32 ≤ v ∧ v ≤ MaxInt32 then TInt32 :: leBytes 4 ((v % (2^32)).toNat)
  else if 0 ≤ v ∧ v ≤ (MaxUint32 : Int) then TUint32 :: leBytes 4 ((v % (2^32)).toNat)
  else if MinInt40 ≤ v ∧ v ≤ MaxInt40 then TInt40 :: leBytes 5 ((v % (2^40)).toNat)
  else if 0 ≤ v ∧ v ≤ (MaxUint40 : Int) then TUint40 :: leBytes 5 ((v % (2^40)).toNat)
  else if MinInt48 ≤ v ∧ v ≤ MaxInt48 then TInt48 :: leBytes 6 ((v % (2^48)).toNat)
  else if 0 ≤ v ∧ v ≤ (MaxUint48 : Int) then TUint48 :: leBytes 6 ((v % (2^48)).toNat)
  else if MinInt56 ≤ v ∧ v ≤ MaxInt56 then TInt56 :: leBytes 7 ((v % (2^56)).toNat)
  else if 0 ≤ v ∧ v ≤ (MaxUint56 : Int) then TUint56 :: leBytes 7 ((v % (2^56)).toNat)
  else if MinInt64 ≤ v ∧ v ≤ MaxInt64 then TInt64 :: leBytes 8 ((v % (2^64)).toNat)
  else []

/-! ## The stream Encoder and Decoder (encoder.go, decoder in
src/unnamed/part_002)

The sink (`io.Writer`) is modelled by a plan of per-call outcomes (an
exhausted plan means every further write succeeds in full) together with
the chronological list of `Write` calls issued; the source (`io.Reader`)
is a list of pending input bytes, from which `io.ReadFull` consumes what
is available and reports an error when fewer bytes than requested were
present.  Go errors are a small closed inductive. -/

inductive Err where
  | integerOverflow (val max : Nat)
  | underrun
  | ioFailure (n : Nat)
  | eof
deriving DecidableEq, Repr

inductive SinkOutcome where
  | ok
  | fail (short : Nat) (e : Err)
deriving DecidableEq, Repr

inductive ByteOrder where
  | LittleEndian
  | BigEndian
deriving DecidableEq, Repr

def ByteOrder.Uint16 : ByteOrder → List Nat → Nat
  | .LittleEndian, b => littleEndian.Uint16 b
  | .BigEndian, b => bigEndian.Uint16 b

def ByteOrder.Uint24 : ByteOrder → List Nat → Nat
  | .LittleEndian, b => littleEndian.Uint24 b
  | .BigEndian, b => bigEndian.Uint24 b

def ByteOrder.Uint32 : ByteOrder → List Nat → Nat
  | .LittleEndian, b => littleEndian.Uint32 b
  | .BigEndian, b => bigEndian.Uint32 b

def ByteOrder.Uint40 : ByteOrder → List Nat → Nat
  | .LittleEndian, b => littleEndian.Uint40 b
  | .BigEndian, b => bigEndian.Uint40 b

def ByteOrder.Uint48 : ByteOrder → List Nat → Nat
  | .LittleEndian, b => littleEndian.Uint48 b
  | .BigEndian, b => bigEndian.Uint48 b

def ByteOrder.Uint56 : ByteOrder → List Nat → Nat
  | .LittleEndian, b => littleEndian.Uint56 b
  | .BigEndian, b => bigEndian.Uint56 b

def ByteOrder.Uint64 : ByteOrder → List Nat → Nat
  | .LittleEndian, b => littleEndian.Uint64 b
  | .BigEndian, b => bigEndian.Uint64 b

def ByteOrder.PutUint16 : ByteOrder → List Nat → Nat → List Nat
  | .LittleEndian, b, v => littleEndian.PutUint16 b v
  | .BigEndian, b, v => bigEndian.PutUint16 b v

def ByteOrder.PutUint24 : ByteOrder → List Nat → Nat → List Nat
  | .LittleEndian, b, v => littleEndian.PutUint24 b v
  | .BigEndian, b, v => bigEndian.PutUint24 b v

def ByteOrder.PutUint32 : ByteOrder → List Nat → Nat → List Nat
  | .LittleEndian, b, v => littleEndian.PutUint32 b v
  | .BigEndian, b, v => bigEndian.PutUint32 b v

def ByteOrder.PutUint40 : ByteOrder → List Nat → Nat → List Nat
  | .LittleEndian, b, v => littleEndian.PutUint40 b v
  | .BigEndian, b, v => bigEndian.PutUint40 b v

def ByteOrder.PutUint48 : ByteOrder → List Nat → Nat → List Nat
  | .LittleEndian, b, v => littleEndian.PutUint48 b v
  | .BigEndian, b, v => bigEndian.PutUint48 b v

def ByteOrder.PutUint56 : ByteOrder → List Nat → Nat → List Nat
  | .LittleEndian, b, v => littleEndian.PutUint56 b v
  | .BigEndian, b, v => bigEndian.PutUint56 b v

def ByteOrder.PutUint64 : ByteOrder → List Nat → Nat → List Nat
  | .LittleEndian, b, v => littleEndian.PutUint64 b v
  | .BigEndian, b, v => bigEndian.PutUint64 b v

/-- IntSize: the storage classes of the length prefix. -/
inductive IntSize where
  | I8
  | I16
  | I24
  | I32
  | I40
  | I64
  | IVar
deriving DecidableEq, Repr

/-- binary.PutUvarint: little-endian base-128 groups, low 7 bits per
byte, high bit set on every byte except the last. -/
def putUvarintBytes (v : Nat) : List Nat :=
  if h : v < 128 then [v]
  else (v % 128 + 128) :: putUvarintBytes (v / 128)
termination_by v
decreasing_by omega

structure Encoder where
  buf10 : List Nat
  plan : List SinkOutcome
  sinkWrites : List (List Nat)
  firstErr : Option Err
  failOnError : Bool
deriving DecidableEq, Repr

namespace Encoder

/-- NewEncoder: a 10-byte scratch buffer, no pending error. -/
def NewEncoder (plan : List SinkOutcome) (failOnError : Bool) : Encoder :=
  ⟨List.replicate 10 0, plan, [], none, failOnError⟩

/-- Reset removes any error state. -/
def Reset (e : Encoder) : Encoder := { e with firstErr := none }

/-- quickFail returns true if an error is already pending and the writer
should not be bothered again. -/
def quickFail (e : Encoder) : Bool := e.failOnError && e.firstErr.isSome

/-- noteErr: record `err` only when no error is recorded yet; report
whether an error is pending afterwards. -/
def noteErr (e : Encoder) (err : Option Err) : Encoder × Bool :=
  let e1 := match err, e.firstErr with
    | some er, none => { e with firstErr := some er }
    | _, _ => e
  (e1, e1.firstErr.isSome)

/-- WriteSlice writes the slice out without any length prefix and returns
the number of bytes the sink accepted. -/
def WriteSlice (e : Encoder) (v : List Nat) : Nat × Encoder :=
  if e.quickFail then (0, e)
  else
    let outcome := e.plan.headD .ok
    let e1 := { e with sinkWrites := e.sinkWrites ++ [v], plan := e.plan.tail }
    let n := match outcome with | .ok => v.length | .fail short _ => short
    let errW : Option Err := match outcome with | .ok => none | .fail _ er => some er
    let (e2, bad) := e1.noteErr errW
    let e3 := if bad ∨ n ≠ v.length then (e2.noteErr (some .underrun)).1 else e2
    (n, e3)

def WriteBytes (e : Encoder) (v : List Nat) : Nat × Encoder :=
  e.WriteSlice v

/-- WriteByte (io.ByteWriter): stores the byte in the scratch buffer and
issues a one-byte write directly to the sink, recording but not
re-checking the write length. -/
def WriteByte (e : Encoder) (c : Nat) : Option Err × Encoder :=
  if e.quickFail then (e.firstErr, e)
  else
    let e0 := { e with buf10 := e.buf10.set 0 c }
    let outcome := e0.plan.headD .ok
    let e1 := { e0 with sinkWrites := e0.sinkWrites ++ [[c]], plan := e0.plan.tail }
    let errW : Option Err := match outcome with | .ok => none | .fail _ er => some er
    (errW, (e1.noteErr errW).1)

def WriteUint8 (e : Encoder) (v : Nat) : Encoder :=
  (e.WriteByte v).2

def WriteInt8 (e : Encoder) (v : Int) : Encoder :=
  e.WriteUint8 ((v % (2^8)).toNat)

def WriteUint16 (e : Encoder) (o : ByteOrder) (v : Nat) : Encoder :=
  let tmp := o.PutUint16 (e.buf10.take 2) v
  let e1 := { e with buf10 := tmp ++ e.buf10.drop 2 }
  (e1.WriteSlice tmp).2

def WriteInt16 (e : Encoder) (o : ByteOrder) (v : Int) : Encoder :=
  e.WriteUint16 o ((v % (2^16)).toNat)

def WriteUint24 (e : Encoder) (o : ByteOrder) (v : Nat) : Encoder :=
  let tmp := o.PutUint24 (e.buf10.take 3) v
  let e1 := { e with buf10 := tmp ++ e.buf10.drop 3 }
  (e1.WriteSlice tmp).2

def WriteInt24 (e : Encoder) (o : ByteOrder) (v : Int) : Encoder :=
  e.WriteUint24 o ((v % (2^32)).toNat)

def WriteUint32 (e : Encoder) (o : ByteOrder) (v : Nat) : Encoder :=
  let tmp := o.PutUint32 (e.buf10.take 4) v
  let e1 := { e with buf10 := tmp ++ e.buf10.drop 4 }
  (e1.WriteSlice tmp).2

def WriteInt32 (e : Encoder) (o : ByteOrder) (v : Int) : Encoder :=
  e.WriteUint32 o ((v % (2^32)).toNat)

def WriteUint40 (e : Encoder) (o : ByteOrder) (v : Nat) : Encoder :=
  let tmp := o.PutUint40 (e.buf10.take 5) v
  let e1 := { e with buf10 := tmp ++ e.buf10.drop 5 }
  (e1.WriteSlice tmp).2

def WriteInt40 (e : Encoder) (o : ByteOrder) (v : Int) : Encoder :=
  e.WriteUint40 o ((v % (2^64)).toNat)

def WriteUint48 (e : Encoder) (o : ByteOrder) (v : Nat) : Encoder :=
  let tmp := o.PutUint48 (e.buf10.take 6) v
  let e1 := { e with buf10 := tmp ++ e.buf10.drop 6 }
  (e1.WriteSlice tmp).2

def WriteInt48 (e : Encoder) (o : ByteOrder) (v : Int) : Encoder :=
  e.WriteUint48 o ((v % (2^64)).toNat)

def WriteUint56 (e : Encoder) (o : ByteOrder) (v : Nat) : Encoder :=
  let tmp := o.PutUint56 (e.buf10.take 7) v
  let e1 := { e with buf10 := tmp ++ e.buf10.drop 7 }
  (e1.WriteSlice tmp).2

def WriteInt56 (e : Encoder) (o : ByteOrder) (v : Int) : Encoder :=
  e.WriteUint56 o ((v % (2^64)).toNat)

def WriteUint64 (e : Encoder) (o : ByteOrder) (v : Nat) : Encoder :=
  let tmp := o.PutUint64 (e.buf10.take 8) v
  let e1 := { e with buf10 := tmp ++ e.buf10.drop 8 }
  (e1.WriteSlice tmp).2

def WriteInt64 (e : Encoder) (o : ByteOrder) (v : Int) : Encoder :=
  e.WriteUint64 o ((v % (2^64)).toNat)

/-- WriteUvarint: encodes into the scratch buffer, then writes the used
bytes. -/
def WriteUvarint (e : Encoder) (v : Nat) : Encoder :=
  let bs := putUvarintBytes v
  let e1 := { e with buf10 := storeAt e.buf10 0 bs }
  (e1.WriteBytes bs).2

/-- WriteBlob writes a length prefix chosen by the storage class and then
the payload; an oversized length records an IntegerOverflow and returns
without writing.  Note the source's `uint32(len(v))` truncation in the
I24 guard, kept faithfully. -/
def WriteBlob (e : Encoder) (o : ByteOrder) (p : IntSize) (v : List Nat) : Encoder :=
  if e.quickFail then e
  else
    match p with
    | .I8 =>
      if v.length > 255 then (e.noteErr (some (.integerOverflow v.length 255))).1
      else ((e.WriteUint8 (v.length % 2^8)).WriteSlice v).2
    | .I16 =>
      if v.length > 65535 then (e.noteErr (some (.integerOverflow v.length 65535))).1
      else ((e.WriteUint16 o (v.length % 2^16)).WriteSlice v).2
    | .I24 =>
      if v.length % 2^32 > MaxUint24 then
        (e.noteErr (some (.integerOverflow v.length MaxUint24))).1
      else ((e.WriteUint24 o (v.length % 2^32)).WriteSlice v).2
    | .I32 =>
      if v.length > 4294967295 then
        (e.noteErr (some (.integerOverflow v.length 4294967295))).1
      else ((e.WriteUint32 o (v.length % 2^32)).WriteSlice v).2
    | .I40 =>
      if v.length > MaxUint40 then
        (e.noteErr (some (.integerOverflow v.length MaxUint40))).1
      else ((e.WriteUint40 o v.length).WriteSlice v).2
    | .I64 => ((e.WriteUint64 o v.length).WriteSlice v).2
    | .IVar => ((e.WriteUvarint v.length).WriteSlice v).2

/-- Error returns the first occurred error. -/
def Error (e : Encoder) : Option Err := e.firstErr

end Encoder

structure Decoder where
  buf8 : List Nat
  input : List Nat
  firstErr : Option Err
  failOnError : Bool
deriving DecidableEq, Repr

namespace Decoder

/-- NewDecoder: an 8-byte scratch buffer, no pending error. -/
def NewDecoder (input : List Nat) (failOnError : Bool) : Decoder :=
  ⟨List.replicate 8 0, input, none, failOnError⟩

/-- Reset removes any error state. -/
def Reset (r : Decoder) : Decoder := { r with firstErr := none }

def quickFail (r : Decoder) : Bool := r.failOnError && r.firstErr.isSome

/-- noteErr: record `err` only when no error is recorded yet; report
whether an error is pending afterwards. -/
def noteErr (r : Decoder) (err : Option Err) : Decoder × Bool :=
  let r1 := match err, r.firstErr with
    | some er, none => { r with firstErr := some er }
    | _, _ => r
  (r1, r1.firstErr.isSome)

/-- io.ReadFull into a fresh `k`-byte destination: consumes what is
available, reports EOF when fewer than `k` bytes were present. -/
def readFullRaw (r : Decoder) (k : Nat) : List Nat × Option Err × Decoder :=
  let got := r.input.take k
  (got, if got.length = k then none else some .eof,
    { r with input := r.input.drop k })

/-- ReadUint8 reads one byte through the scratch buffer. -/
def ReadUint8 (r : Decoder) : Nat × Decoder :=
  if r.quickFail then (0, r)
  else
    let (got, er, r1) := r.readFullRaw 1
    let r2 := { r1 with buf8 := storeAt r1.buf8 0 got }
    let (r3, bad) := r2.noteErr er
    if bad then (0, r3) else (r3.buf8.getD 0 0, r3)

def ReadInt8 (r : Decoder) : Int × Decoder :=
  let (u, r1) := r.ReadUint8
  (toInt8 u, r1)

def ReadUint16 (r : Decoder) (order : ByteOrder) : Nat × Decoder :=
  if r.quickFail then (0, r)
  else
    let (got, er, r1) := r.readFullRaw 2
    let r2 := { r1 with buf8 := storeAt r1.buf8 0 got }
    let (r3, bad) := r2.noteErr er
    if bad then (0, r3) else (order.Uint16 (r3.buf8.take 2), r3)

def ReadUint24 (r : Decoder) (order : ByteOrder) : Nat × Decoder :=
  if r.quickFail then (0, r)
  else
    let (got, er, r1) := r.readFullRaw 3
    let r2 := { r1 with buf8 := storeAt r1.buf8 0 got }
    let (r3, bad) := r2.noteErr er
    if bad then (0, r3) else (order.Uint24 (r3.buf8.take 3), r3)

def ReadUint32 (r : Decoder) (order : ByteOrder) : Nat × Decoder :=
  if r.quickFail then (0, r)
  else
    let (got, er, r1) := r.readFullRaw 4
    let r2 := { r1 with buf8 := storeAt r1.buf8 0 got }
    let (r3, bad) := r2.noteErr er
    if bad then (0, r3) else (order.Uint32 (r3.buf8.take 4), r3)

def ReadUint40 (r : Decoder) (order : ByteOrder) : Nat × Decoder :=
  if r.quickFail then (0, r)
  else
    let (got, er, r1) := r.readFullRaw 5
    let r2 := { r1 with buf8 := storeAt r1.buf8 0 got }
    let (r3, bad) := r2.noteErr er
    if bad then (0, r3) else (order.Uint40 (r3.buf8.take 5), r3)

def ReadUint48 (r : Decoder) (order : ByteOrder) : Nat × Decoder :=
  if r.quickFail then (0, r)
  else
    let (got, er, r1) := r.readFullRaw 6
    let r2 := { r1 with buf8 := storeAt r1.buf8 0 got }
    let (r3, bad) := r2.noteErr er
    if bad then (0, r3) else (order.Uint48 (r3.buf8.take 6), r3)

def ReadUint56 (r : Decoder) (order : ByteOrder) : Nat × Decoder :=
  if r.quickFail then (0, r)
  else
    let (got, er, r1) := r.readFullRaw 7
    let r2 := { r1 with buf8 := storeAt r1.buf8 0 got }
    let (r3, bad) := r2.noteErr er
    if bad then (0, r3) else (order.Uint56 (r3.buf8.take 7), r3)

def ReadUint64 (r : Decoder) (order : ByteOrder) : Nat × Decoder :=
  if r.quickFail then (0, r)
  else
    let (got, er, r1) := r.readFullRaw 8
    let r2 := { r1 with buf8 := storeAt r1.buf8 0 got }
    let (r3, bad) := r2.noteErr er
    if bad then (0, r3) else (order.Uint64 r3.buf8, r3)

/-- ReadInt16 reads 2 bytes and interprets them as signed. -/
def ReadInt16 (r : Decoder) (order : ByteOrder) : Int × Decoder :=
  let (u, r1) := r.ReadUint16 order
  (toInt16 u, r1)

/-- ReadInt24 reads 3 bytes; the source converts through `int32(uint32)`,
which does not sign-extend a 24-bit quantity. -/
def ReadInt24 (r : Decoder) (order : ByteOrder) : Int × Decoder :=
  let (u, r1) := r.ReadUint24 order
  (toInt32 u, r1)

def ReadInt32 (r : Decoder) (order : ByteOrder) : Int × Decoder :=
  let (u, r1) := r.ReadUint32 order
  (toInt32 u, r1)

/-- ReadInt40: the source body is `int64(r.ReadUint32(order))` — it reads
only 4 bytes through `ReadUint32`, although its own doc comment says it
reads 5. -/
def ReadInt40 (r : Decoder) (order : ByteOrder) : Int × Decoder :=
  let (u, r1) := r.ReadUint32 order
  ((u : Int), r1)

/-- ReadInt48: the source body is `int64(r.ReadUint32(order))` — 4 bytes
instead of the documented 6. -/
def ReadInt48 (r : Decoder) (order : ByteOrder) : Int × Decoder :=
  let (u, r1) := r.ReadUint32 order
  ((u : Int), r1)

/-- ReadInt56: the source body is `int64(r.ReadUint32(order))` — 4 bytes
instead of the documented 7. -/
def ReadInt56 (r : Decoder) (order : ByteOrder) : Int × Decoder :=
  let (u, r1) := r.ReadUint32 order
  ((u : Int), r1)

def ReadInt64 (r : Decoder) (order : ByteOrder) : Int × Decoder :=
  let (u, r1) := r.ReadUint64 order
  (toInt64 u, r1)

/-- ReadFull reads exactly `k` bytes into the caller's buffer (returned
as the middle component) — without any `quickFail` gate in the source. -/
def ReadFull (r : Decoder) (k : Nat) : Nat × List Nat × Decoder :=
  let (got, er, r1) := r.readFullRaw k
  let (r2, _) := r1.noteErr er
  (got.length, got, r2)

/-- ReadBytes allocates a fresh buffer of length `len` and fills it with
ReadFull. -/
def ReadBytes (r : Decoder) (len : Nat) : List Nat × Decoder :=
  if r.quickFail then ([], r)
  else
    let (n, got, r1) := r.ReadFull len
    ((got ++ List.replicate (len - got.length) 0).take n, r1)

/-- Error returns the first occurred error. -/
def Error (r : Decoder) : Option Err := r.firstErr

end Decoder

/-! ## Basic facts about `storeAt` (the model of Go's `copy` into a
sub-slice) used to describe the effect of the buffer write operations. -/

theorem storeAt_length : ∀ (v l : List Nat) (p : Nat),
    (storeAt l p v).length = l.length := by
  intro v
  induction v with
  | nil => intro l p; rfl
  | cons a rest ih => intro l p; rw [storeAt, ih]; simp

theorem storeAt_eq_of_le : ∀ (v l : List Nat) (p : Nat),
    p + v.length ≤ l.length →
    storeAt l p v = l.take p ++ v ++ l.drop (p + v.length) := by
  intro v
  induction v with
  | nil =>
    intro l p h
    simp only [storeAt, List.length_nil, Nat.add_zero, List.append_nil]
    exact (List.take_append_drop p l).symm
  | cons a rest ih =>
    intro l p h
    have hp : p < l.length := by simp only [List.length_cons] at h; omega
    have hset : l.set p a = l.take p ++ a :: l.drop (p + 1) :=
      List.set_eq_take_cons_drop a hp
    have hlen : (l.take p).length = p := by simp; omega
    rw [storeAt, ih (l.set p a) (p + 1)
      (by rw [List.length_set]; simp only [List.length_cons] at h; omega)]
    rw [hset]
    have h1 : (l.take p ++ a :: l.drop (p + 1)).take (p + 1) = l.take p ++ [a] := by
      have := @List.take_append Nat (l.take p) (a :: l.drop (p + 1)) 1
      rw [hlen] at this
      simpa using this
    have h2 : (l.take p ++ a :: l.drop (p + 1)).drop (p + 1 + rest.length) =
        l.drop (p + (rest.length + 1)) := by
      have := @List.drop_append Nat (l.take p) (a :: l.drop (p + 1))
        (1 + rest.length)
      rw [hlen] at this
      have harith : p + 1 + rest.length = p + (1 + rest.length) := by omega
      rw [harith, this]
      have h3 : 1 + rest.length = rest.length + 1 := by omega
      rw [h3]
      simp only [List.drop_succ_cons, List.drop_drop]
      congr 1
      omega
    rw [h1, h2]
    simp only [List.length_cons, List.append_assoc, List.cons_append,
      List.nil_append]

theorem WriteSlice_eq (st : LittleEndianBuffer) (w : List Nat)
    (hb : st.Pos + w.length ≤ st.Bytes.length) :
    st.WriteSlice w =
      ⟨st.Bytes.take st.Pos ++ w ++ st.Bytes.drop (st.Pos + w.length),
        st.Pos + w.length⟩ := by
  unfold LittleEndianBuffer.WriteSlice
  rw [storeAt_eq_of_le w st.Bytes st.Pos hb]

theorem storeAt_append : ∀ (u w l : List Nat) (p : Nat),
    storeAt l p (u ++ w) = storeAt (storeAt l p u) (p + u.length) w := by
  intro u
  induction u with
  | nil => intro w l p; simp [storeAt]
  | cons a rest ih =>
    intro w l p
    rw [List.cons_append, storeAt, storeAt, ih]
    have : p + (rest.length + 1) = p + 1 + rest.length := by omega
    simp [List.length_cons, this]

theorem WriteSlice_WriteSlice (st : LittleEndianBuffer) (u w : List Nat) :
    (st.WriteSlice u).WriteSlice w = st.WriteSlice (u ++ w) := by
  unfold LittleEndianBuffer.WriteSlice
  rw [storeAt_append]
  simp [Nat.add_assoc]

set_option maxHeartbeats 4000000 in
/-- Normal form of `WriteInt` on a fresh 9-byte buffer: each branch of
the source ladder written out explicitly. -/
theorem WriteInt_fresh (v : Int) :
    LittleEndianBuffer.WriteInt ⟨[0, 0, 0, 0, 0, 0, 0, 0, 0], 0⟩ v =
      if MinInt8 ≤ v ∧ v ≤ (MaxUint8 : Int) then
        (if v > MaxInt8 then
          ⟨[TUint8, (v % (2^8)).toNat, 0, 0, 0, 0, 0, 0, 0], 2⟩
        else ⟨[TInt8, (v % (2^8)).toNat, 0, 0, 0, 0, 0, 0, 0], 2⟩)
      else if MinInt16 ≤ v ∧ v ≤ (MaxUint16 : Int) then
        (if v > MaxInt16 then
          ⟨[TUint16, (v % (2^16)).toNat % 2^8, (v % (2^16)).toNat / 2^8 % 2^8,
            0, 0, 0, 0, 0, 0], 3⟩
        else
          ⟨[TInt16, (v % (2^16)).toNat % 2^8, (v % (2^16)).toNat / 2^8 % 2^8,
            0, 0, 0, 0, 0, 0], 3⟩)
      else if MinInt24 ≤ v ∧ v ≤ (MaxUint24 : Int) then
        (if v > MaxInt24 then
          ⟨[TUint24, (v % (2^32)).toNat % 2^8, (v % (2^32)).toNat / 2^8 % 2^8,
            (v % (2^32)).toNat / 2^16 % 2^8, 0, 0, 0, 0, 0], 4⟩
        else
          ⟨[TInt24, (v % (2^32)).toNat % 2^8, (v % (2^32)).toNat / 2^8 % 2^8,
            (v % (2^32)).toNat / 2^16 % 2^8, 0, 0, 0, 0, 0], 4⟩)
      else if MinInt32 ≤ v ∧ v ≤ (MaxUint32 : Int) then
        (if v > MaxInt32 then
          ⟨[TUint32, (v % (2^32)).toNat % 2^8, (v % (2^32)).toNat / 2^8 % 2^8,
            (v % (2^32)).toNat / 2^16 % 2^8, (v % (2^32)).toNat / 2^24 % 2^8,
            0, 0, 0, 0], 5⟩
        else
          ⟨[TInt32, (v % (2^32)).toNat % 2^8, (v % (2^32)).toNat / 2^8 % 2^8,
            (v % (2^32)).toNat / 2^16 % 2^8, (v % (2^32)).toNat / 2^24 % 2^8,
            0, 0, 0, 0], 5⟩)
      else if MinInt40 ≤ v ∧ v ≤ (MaxUint40 : Int) then
        (if v > MaxInt40 then
          ⟨[TUint40, (v % (2^64)).toNat % 2^8, (v % (2^64)).toNat / 2^8 % 2^8,
            (v % (2^64)).toNat / 2^16 % 2^8, (v % (2^64)).toNat / 2^24 % 2^8,
            (v % (2^64)).toNat / 2^32 % 2^8, 0, 0, 0], 6⟩
        else
          ⟨[TInt40, (v % (2^64)).toNat % 2^8, (v % (2^64)).toNat / 2^8 % 2^8,
            (v % (2^64)).toNat / 2^16 % 2^8, (v % (2^64)).toNat / 2^24 % 2^8,
            (v % (2^64)).toNat / 2^32 % 2^8, 0, 0, 0], 6⟩)
      else if MinInt48 ≤ v ∧ v ≤ (MaxUint48 : Int) then
        (if v > MaxInt48 then
          ⟨[TUint48, (v % (2^64)).toNat % 2^8, (v % (2^64)).toNat / 2^8 % 2^8,
            (v % (2^64)).toNat / 2^16 % 2^8, (v % (2^64)).toNat / 2^24 % 2^8,
            (v % (2^64)).toNat / 2^32 % 2^8, (v % (2^64)).toNat / 2^40 % 2^8,
            0, 0], 7⟩
        else
          ⟨[TInt48, (v % (2^64)).toNat % 2^8, (v % (2^64)).toNat / 2^8 % 2^8,
            (v % (2^64)).toNat / 2^16 % 2^8, (v % (2^64)).toNat / 2^24 % 2^8,
            (v % (2^64)).toNat / 2^32 % 2^8, (v % (2^64)).toNat / 2^40 % 2^8,
            0, 0], 7⟩)
      else if MinInt56 ≤ v ∧ v ≤ (MaxUint56 : Int) then
        (if v > MaxInt56 then
          ⟨[TUint56, (v % (2^64)).toNat % 2^8, (v % (2^64)).toNat / 2^8 % 2^8,
            (v % (2^64)).toNat / 2^16 % 2^8, (v % (2^64)).toNat / 2^24 % 2^8,
            (v % (2^64)).toNat / 2^32 % 2^8, (v % (2^64)).toNat / 2^40 % 2^8,
            (v % (2^64)).toNat / 2^48 % 2^8, 0], 8⟩
        else
          ⟨[TInt56, (v % (2^64)).toNat % 2^8, (v % (2^64)).toNat / 2^8 % 2^8,
            (v % (2^64)).toNat / 2^16 % 2^8, (v % (2^64)).toNat / 2^24 % 2^8,
            (v % (2^64)).toNat / 2^32 % 2^8, (v % (2^64)).toNat / 2^40 % 2^8,
            (v % (2^64)).toNat / 2^48 % 2^8, 0], 8⟩)
      else
        ⟨[TInt64, (v % (2^64)).toNat % 2^8, (v % (2^64)).toNat / 2^8 % 2^8,
          (v % (2^64)).toNat / 2^16 % 2^8, (v % (2^64)).toNat / 2^24 % 2^8,
          (v % (2^64)).toNat / 2^32 % 2^8, (v % (2^64)).toNat / 2^40 % 2^8,
          (v % (2^64)).toNat / 2^48 % 2^8, (v % (2^64)).toNat / 2^56 % 2^8], 9⟩ := by
  unfold LittleEndianBuffer.WriteInt
  by_cases h1 : MinInt8 ≤ v ∧ v ≤ (MaxUint8 : Int)
  · rw [if_pos h1, if_pos h1]
    by_cases g : v > MaxInt8
    · rw [if_pos g, if_pos g]; rfl
    · rw [if_neg g, if_neg g]; rfl
  · rw [if_neg h1, if_neg h1]
    by_cases h2 : MinInt16 ≤ v ∧ v ≤ (MaxUint16 : Int)
    · rw [if_pos h2, if_pos h2]
      by_cases g : v > MaxInt16
      · rw [if_pos g, if_pos g]; rfl
      · rw [if_neg g, if_neg g]; rfl
    · rw [if_neg h2, if_neg h2]
      by_cases h3 : MinInt24 ≤ v ∧ v ≤ (MaxUint24 : Int)
      · rw [if_pos h3, if_pos h3]
        by_cases g : v > MaxInt24
        · rw [if_pos g, if_pos g]; rfl
        · rw [if_neg g, if_neg g]; rfl
      · rw [if_neg h3, if_neg h3]
        by_cases h4 : MinInt32 ≤ v ∧ v ≤ (MaxUint32 : Int)
        · rw [if_pos h4, if_pos h4]
          by_cases g : v > MaxInt32
          · rw [if_pos g, if_pos g]; rfl
          · rw [if_neg g, if_neg g]; rfl
        · rw [if_neg h4, if_neg h4]
          by_cases h5 : MinInt40 ≤ v ∧ v ≤ (MaxUint40 : Int)
          · rw [if_pos h5, if_pos h5]
            by_cases g : v > MaxInt40
            · rw [if_pos g, if_pos g]; rfl
            · rw [if_neg g, if_neg g]; rfl
          · rw [if_neg h5, if_neg h5]
            by_cases h6 : MinInt48 ≤ v ∧ v ≤ (MaxUint48 : Int)
            · rw [if_pos h6, if_pos h6]
              by_cases g : v > MaxInt48
              · rw [if_pos g, if_pos g]; rfl
              · rw [if_neg g, if_neg g]; rfl
            · rw [if_neg h6, if_neg h6]
              by_cases h7 : MinInt56 ≤ v ∧ v ≤ (MaxUint56 : Int)
              · rw [if_pos h7, if_pos h7]
                by_cases g : v > MaxInt56
                · rw [if_pos g, if_pos g]; rfl
                · rw [if_neg g, if_neg g]; rfl
              · rw [if_neg h7, if_neg h7]; rfl

/-- C9: for every width in 16, 24, 32, 40, 48, 56, 64 bits and both byte
orders, reading back with `UintW` after `PutUintW b v` returns exactly `v`
for every `v` representable in `W` bits and every buffer `b` that is long
enough; the big-endian variant lays the written bytes out in exactly the
reverse order of the little-endian variant; and beyond the written
`W / 8` bytes the caller-supplied buffer is untouched (the operations are
pure and have no further side effect). -/
theorem c9_byteorder_roundtrip (v : Nat) (b : List Nat) (hb : 8 ≤ b.length) :
    (v < 2^16 →
      littleEndian.Uint16 (littleEndian.PutUint16 b v) = v ∧
      bigEndian.Uint16 (bigEndian.PutUint16 b v) = v ∧
      (bigEndian.PutUint16 b v).take 2 = ((littleEndian.PutUint16 b v).take 2).reverse ∧
      (littleEndian.PutUint16 b v).drop 2 = b.drop 2 ∧
      (bigEndian.PutUint16 b v).drop 2 = b.drop 2) ∧
    (v < 2^24 →
      littleEndian.Uint24 (littleEndian.PutUint24 b v) = v ∧
      bigEndian.Uint24 (bigEndian.PutUint24 b v) = v ∧
      (bigEndian.PutUint24 b v).take 3 = ((littleEndian.PutUint24 b v).take 3).reverse ∧
      (littleEndian.PutUint24 b v).drop 3 = b.drop 3 ∧
      (bigEndian.PutUint24 b v).drop 3 = b.drop 3) ∧
    (v < 2^32 →
      littleEndian.Uint32 (littleEndian.PutUint32 b v) = v ∧
      bigEndian.Uint32 (bigEndian.PutUint32 b v) = v ∧
      (bigEndian.PutUint32 b v).take 4 = ((littleEndian.PutUint32 b v).take 4).reverse ∧
      (littleEndian.PutUint32 b v).drop 4 = b.drop 4 ∧
      (bigEndian.PutUint32 b v).drop 4 = b.drop 4) ∧
    (v < 2^40 →
      littleEndian.Uint40 (littleEndian.PutUint40 b v) = v ∧
      bigEndian.Uint40 (bigEndian.PutUint40 b v) = v ∧
      (bigEndian.PutUint40 b v).take 5 = ((littleEndian.PutUint40 b v).take 5).reverse ∧
      (littleEndian.PutUint40 b v).drop 5 = b.drop 5 ∧
      (bigEndian.PutUint40 b v).drop 5 = b.drop 5) ∧
    (v < 2^48 →
      littleEndian.Uint48 (littleEndian.PutUint48 b v) = v ∧
      bigEndian.Uint48 (bigEndian.PutUint48 b v) = v ∧
      (bigEndian.PutUint48 b v).take 6 = ((littleEndian.PutUint48 b v).take 6).reverse ∧
      (littleEndian.PutUint48 b v).drop 6 = b.drop 6 ∧
      (bigEndian.PutUint48 b v).drop 6 = b.drop 6) ∧
    (v < 2^56 →
      littleEndian.Uint56 (littleEndian.PutUint56 b v) = v ∧
      bigEndian.Uint56 (bigEndian.PutUint56 b v) = v ∧
      (bigEndian.PutUint56 b v).take 7 = ((littleEndian.PutUint56 b v).take 7).reverse ∧
      (littleEndian.PutUint56 b v).drop 7 = b.drop 7 ∧
      (bigEndian.PutUint56 b v).drop 7 = b.drop 7) ∧
    (v < 2^64 →
      littleEndian.Uint64 (littleEndian.PutUint64 b v) = v ∧
      bigEndian.Uint64 (bigEndian.PutUint64 b v) = v ∧
      (bigEndian.PutUint64 b v).take 8 = ((littleEndian.PutUint64 b v).take 8).reverse ∧
      (littleEndian.PutUint64 b v).drop 8 = b.drop 8 ∧
      (bigEndian.PutUint64 b v).drop 8 = b.drop 8) := by
  rcases b with _ | ⟨b0, b⟩; · simp at hb
  rcases b with _ | ⟨b1, b⟩; · simp at hb
  rcases b with _ | ⟨b2, b⟩; · simp at hb
  rcases b with _ | ⟨b3, b⟩; · simp at hb
  rcases b with _ | ⟨b4, b⟩; · simp at hb
  rcases b with _ | ⟨b5, b⟩; · simp at hb
  rcases b with _ | ⟨b6, b⟩; · simp at hb
  rcases b with _ | ⟨b7, b⟩; · simp at hb
  refine ⟨fun hv => ⟨?_, ?_, ?_, ?_, ?_⟩, fun hv => ⟨?_, ?_, ?_, ?_, ?_⟩,
    fun hv => ⟨?_, ?_, ?_, ?_, ?_⟩, fun hv => ⟨?_, ?_, ?_, ?_, ?_⟩,
    fun hv => ⟨?_, ?_, ?_, ?_, ?_⟩, fun hv => ⟨?_, ?_, ?_, ?_, ?_⟩,
    fun hv => ⟨?_, ?_, ?_, ?_, ?_⟩⟩ <;>
  first
    | rfl
    | (simp only [littleEndian.Uint16, littleEndian.PutUint16,
        bigEndian.Uint16, bigEndian.PutUint16,
        littleEndian.Uint24, littleEndian.PutUint24,
        bigEndian.Uint24, bigEndian.PutUint24,
        littleEndian.Uint32, littleEndian.PutUint32,
        bigEndian.Uint32, bigEndian.PutUint32,
        littleEndian.Uint40, littleEndian.PutUint40,
        bigEndian.Uint40, bigEndian.PutUint40,
        littleEndian.Uint48, littleEndian.PutUint48,
        bigEndian.Uint48, bigEndian.PutUint48,
        littleEndian.Uint56, littleEndian.PutUint56,
        bigEndian.Uint56, bigEndian.PutUint56,
        littleEndian.Uint64, littleEndian.PutUint64,
        bigEndian.Uint64, bigEndian.PutUint64,
        List.set, List.getD_cons_zero, List.getD_cons_succ];
       omega)

/-- Closed instance of C9: round-trip of the value 513 through the 16-bit
little-endian put/get on a concrete 8-byte buffer. -/
theorem c9_byteorder_roundtrip_witness :
    littleEndian.Uint16 (littleEndian.PutUint16 [0, 0, 0, 0, 0, 0, 0, 0] 513) = 513 :=
  ((c9_byteorder_roundtrip 513 [0, 0, 0, 0, 0, 0, 0, 0] (by decide)).1 (by decide)).1

/-- C1, evaluated at the failing input: the self-describing `WriteInt`
stores -40000 under the signed 24-bit tag, but `ReadInt` converts the
24-bit payload through Go's `int32(uint32)` — which does not sign-extend
a 24-bit quantity — and returns 16737216 = 2^24 - 40000 instead of
-40000.  The same missing sign extension affects the 40-, 48- and 56-bit
signed tags. -/
theorem c1_readInt_no_sign_extension :
    (LittleEndianBuffer.ReadInt
        ⟨(LittleEndianBuffer.WriteInt ⟨[0, 0, 0, 0], 0⟩ (-40000)).Bytes, 0⟩).map
        Prod.fst = some 16737216 ∧
    (16737216 : Int) ≠ -40000 := by
  decide

/-- C8 fails as stated: TInt40 is a valid tag (`WriteInt` emits it for
values that only fit 40 bits), yet `Drain` has no case for it; the source
switch falls into the default branch and panics "not implemented"
(modelled as `none`) instead of skipping the 5 value bytes. -/
theorem c8_counterexample :
    TypeIsValid TInt40 = true ∧
    LittleEndianBuffer.Drain ⟨List.replicate 6 0, 0⟩ TInt40 = none := by
  decide

/-- C8 as amended: `Drain` advances the cursor without decoding and
returns the number of bytes skipped for the 8-, 16-, 24-, 32- and 64-bit
integer tags (constant skip), the float tags (constant skip), and the
blob/string tags (their own length prefix is read first, then that many
payload bytes are skipped) — but the 40-, 48- and 56-bit integer tags
(and the complex tags) are not handled and hit the source's
"not implemented" panic. -/
theorem c8_drain_amended (f : LittleEndianBuffer) :
    (f.Drain TUint8 = some ({ f with Pos := f.Pos + 1 }, 1) ∧
      f.Drain TInt8 = some ({ f with Pos := f.Pos + 1 }, 1)) ∧
    (f.Drain TUint16 = some ({ f with Pos := f.Pos + 2 }, 2) ∧
      f.Drain TInt16 = some ({ f with Pos := f.Pos + 2 }, 2)) ∧
    (f.Drain TUint24 = some ({ f with Pos := f.Pos + 3 }, 3) ∧
      f.Drain TInt24 = some ({ f with Pos := f.Pos + 3 }, 3)) ∧
    (f.Drain TUint32 = some ({ f with Pos := f.Pos + 4 }, 4) ∧
      f.Drain TInt32 = some ({ f with Pos := f.Pos + 4 }, 4)) ∧
    (f.Drain TUint64 = some ({ f with Pos := f.Pos + 8 }, 8) ∧
      f.Drain TInt64 = some ({ f with Pos := f.Pos + 8 }, 8)) ∧
    (f.Drain TFloat32 = some ({ f with Pos := f.Pos + 4 }, 4) ∧
      f.Drain TFloat64 = some ({ f with Pos := f.Pos + 8 }, 8)) ∧
    (f.Drain TBlob8 =
        some ({ f with Pos := f.Pos + 1 + f.Bytes.getD f.Pos 0 },
          1 + f.Bytes.getD f.Pos 0) ∧
      f.Drain TString8 =
        some ({ f with Pos := f.Pos + 1 + f.Bytes.getD f.Pos 0 },
          1 + f.Bytes.getD f.Pos 0)) ∧
    (f.Drain TBlob16 =
        some ({ f with Pos := f.Pos + 2 +
            (f.Bytes.getD f.Pos 0 + f.Bytes.getD (f.Pos + 1) 0 * 2^8) },
          2 + (f.Bytes.getD f.Pos 0 + f.Bytes.getD (f.Pos + 1) 0 * 2^8)) ∧
      f.Drain TString16 =
        some ({ f with Pos := f.Pos + 2 +
            (f.Bytes.getD f.Pos 0 + f.Bytes.getD (f.Pos + 1) 0 * 2^8) },
          2 + (f.Bytes.getD f.Pos 0 + f.Bytes.getD (f.Pos + 1) 0 * 2^8))) ∧
    (f.Drain TBlob24 =
        some ({ f with Pos := f.Pos + 3 +
            (f.Bytes.getD f.Pos 0 + f.Bytes.getD (f.Pos + 1) 0 * 2^8 +
              f.Bytes.getD (f.Pos + 2) 0 * 2^16) },
          3 + (f.Bytes.getD f.Pos 0 + f.Bytes.getD (f.Pos + 1) 0 * 2^8 +
            f.Bytes.getD (f.Pos + 2) 0 * 2^16)) ∧
      f.Drain TString24 =
        some ({ f with Pos := f.Pos + 3 +
            (f.Bytes.getD f.Pos 0 + f.Bytes.getD (f.Pos + 1) 0 * 2^8 +
              f.Bytes.getD (f.Pos + 2) 0 * 2^16) },
          3 + (f.Bytes.getD f.Pos 0 + f.Bytes.getD (f.Pos + 1) 0 * 2^8 +
            f.Bytes.getD (f.Pos + 2) 0 * 2^16))) ∧
    (f.Drain TBlob32 =
        some ({ f with Pos := f.Pos + 4 +
            (f.Bytes.getD f.Pos 0 + f.Bytes.getD (f.Pos + 1) 0 * 2^8 +
              f.Bytes.getD (f.Pos + 2) 0 * 2^16 + f.Bytes.getD (f.Pos + 3) 0 * 2^24) },
          4 + (f.Bytes.getD f.Pos 0 + f.Bytes.getD (f.Pos + 1) 0 * 2^8 +
            f.Bytes.getD (f.Pos + 2) 0 * 2^16 + f.Bytes.getD (f.Pos + 3) 0 * 2^24)) ∧
      f.Drain TString32 =
        some ({ f with Pos := f.Pos + 4 +
            (f.Bytes.getD f.Pos 0 + f.Bytes.getD (f.Pos + 1) 0 * 2^8 +
              f.Bytes.getD (f.Pos + 2) 0 * 2^16 + f.Bytes.getD (f.Pos + 3) 0 * 2^24) },
          4 + (f.Bytes.getD f.Pos 0 + f.Bytes.getD (f.Pos + 1) 0 * 2^8 +
            f.Bytes.getD (f.Pos + 2) 0 * 2^16 + f.Bytes.getD (f.Pos + 3) 0 * 2^24))) ∧
    (f.Drain TUint40 = none ∧ f.Drain TInt40 = none ∧
      f.Drain TUint48 = none ∧ f.Drain TInt48 = none ∧
      f.Drain TUint56 = none ∧ f.Drain TInt56 = none) := by
  refine ⟨⟨?_, ?_⟩, ⟨?_, ?_⟩, ⟨?_, ?_⟩, ⟨?_, ?_⟩, ⟨?_, ?_⟩, ⟨?_, ?_⟩,
    ⟨?_, ?_⟩, ⟨?_, ?_⟩, ⟨?_, ?_⟩, ⟨?_, ?_⟩, ?_, ?_, ?_, ?_, ?_, ?_⟩ <;>
    simp [LittleEndianBuffer.Drain, LittleEndianBuffer.ReadUint8,
      LittleEndianBuffer.ReadUint16, LittleEndianBuffer.ReadUint24,
      LittleEndianBuffer.ReadUint32] <;> omega

/-- C10: the raw typed-buffer blob writers silently truncate oversized
slices instead of failing: when `v` is longer than the class maximum,
`WriteBlob8/16/24/32` write a length prefix equal to the class maximum
(255 / 65535 / 16777215 / 4294967295) followed by only the first maximum
bytes of `v`, advancing the cursor accordingly; the buffer has no error
slot at all, so no error can be recorded — in contrast with the stream
Encoder's `IntegerOverflow` rejection. -/
theorem c10_raw_blob_writers_truncate (st : LittleEndianBuffer) (v : List Nat) :
    (v.length > MaxUint8 → st.Pos + 256 ≤ st.Bytes.length →
      st.WriteBlob8 v =
        ⟨st.Bytes.take st.Pos ++ 255 :: v.take 255 ++
            st.Bytes.drop (st.Pos + 256), st.Pos + 256⟩) ∧
    (v.length > MaxUint16 → st.Pos + 65537 ≤ st.Bytes.length →
      st.WriteBlob16 v =
        ⟨st.Bytes.take st.Pos ++ 255 :: 255 :: v.take 65535 ++
            st.Bytes.drop (st.Pos + 65537), st.Pos + 65537⟩) ∧
    (v.length > MaxUint24 → st.Pos + 16777218 ≤ st.Bytes.length →
      st.WriteBlob24 v =
        ⟨st.Bytes.take st.Pos ++ 255 :: 255 :: 255 :: v.take 16777215 ++
            st.Bytes.drop (st.Pos + 16777218), st.Pos + 16777218⟩) ∧
    (v.length > MaxUint32 → st.Pos + 4294967299 ≤ st.Bytes.length →
      st.WriteBlob32 v =
        ⟨st.Bytes.take st.Pos ++ 255 :: 255 :: 255 :: 255 :: v.take 4294967295 ++
            st.Bytes.drop (st.Pos + 4294967299), st.Pos + 4294967299⟩) := by
  refine ⟨fun hv hb => ?_, fun hv hb => ?_, fun hv hb => ?_, fun hv hb => ?_⟩
  · simp only [MaxUint8] at hv
    have hWB : st.WriteBlob8 v = st.WriteSlice ([255] ++ v.take 255) := by
      unfold LittleEndianBuffer.WriteBlob8
      rw [if_pos hv]
      show (st.WriteUint8 (255 % 2^8)).WriteSlice (v.take 255) = _
      rw [show st.WriteUint8 (255 % 2^8) = st.WriteSlice [255 % 2^8] from rfl,
        WriteSlice_WriteSlice]
      norm_num
    rw [hWB, WriteSlice_eq]
    · have hmin : min 255 v.length = 255 := by omega
      simp only [List.cons_append, List.nil_append, List.length_cons,
        List.length_take, List.length_append, hmin, List.append_assoc]
    · have hmin : min 255 v.length = 255 := by omega
      simp only [List.length_append, List.length_cons, List.length_take,
        List.length_nil, hmin]
      omega
  · simp only [MaxUint16] at hv
    have hWB : st.WriteBlob16 v = st.WriteSlice ([255, 255] ++ v.take 65535) := by
      unfold LittleEndianBuffer.WriteBlob16
      rw [if_pos hv]
      show (st.WriteUint16 (65535 % 2^16)).WriteSlice (v.take 65535) = _
      rw [show st.WriteUint16 (65535 % 2^16) =
        st.WriteSlice [65535 % 2^16 % 2^8, 65535 % 2^16 / 2^8 % 2^8] from rfl,
        WriteSlice_WriteSlice]
      norm_num
    rw [hWB, WriteSlice_eq]
    · have hmin : min 65535 v.length = 65535 := by omega
      simp only [List.cons_append, List.nil_append, List.length_cons,
        List.length_take, List.length_append, hmin, List.append_assoc]
    · have hmin : min 65535 v.length = 65535 := by omega
      simp only [List.length_append, List.length_cons, List.length_take,
        List.length_nil, hmin]
      omega
  · simp only [MaxUint24] at hv
    have hWB : st.WriteBlob24 v =
        st.WriteSlice ([255, 255, 255] ++ v.take 16777215) := by
      unfold LittleEndianBuffer.WriteBlob24
      rw [if_pos hv]
      show (st.WriteUint24 (16777215 % 2^32)).WriteSlice (v.take 16777215) = _
      rw [show st.WriteUint24 (16777215 % 2^32) =
        st.WriteSlice [16777215 % 2^32 % 2^8, 16777215 % 2^32 / 2^8 % 2^8,
          16777215 % 2^32 / 2^16 % 2^8] from rfl,
        WriteSlice_WriteSlice]
      norm_num
    rw [hWB, WriteSlice_eq]
    · have hmin : min 16777215 v.length = 16777215 := by omega
      simp only [List.cons_append, List.nil_append, List.length_cons,
        List.length_take, List.length_append, hmin, List.append_assoc]
    · have hmin : min 16777215 v.length = 16777215 := by omega
      simp only [List.length_append, List.length_cons, List.length_take,
        List.length_nil, hmin]
      omega
  · simp only [MaxUint32] at hv
    have hWB : st.WriteBlob32 v =
        st.WriteSlice ([255, 255, 255, 255] ++ v.take 4294967295) := by
      unfold LittleEndianBuffer.WriteBlob32
      rw [if_pos hv]
      show (st.WriteUint32 (4294967295 % 2^32)).WriteSlice (v.take 4294967295) = _
      rw [show st.WriteUint32 (4294967295 % 2^32) =
        st.WriteSlice [4294967295 % 2^32 % 2^8, 4294967295 % 2^32 / 2^8 % 2^8,
          4294967295 % 2^32 / 2^16 % 2^8, 4294967295 % 2^32 / 2^24 % 2^8] from rfl,
        WriteSlice_WriteSlice]
      norm_num
    rw [hWB, WriteSlice_eq]
    · have hmin : min 4294967295 v.length = 4294967295 := by omega
      simp only [List.cons_append, List.nil_append, List.length_cons,
        List.length_take, List.length_append, hmin, List.append_assoc]
    · have hmin : min 4294967295 v.length = 4294967295 := by omega
      simp only [List.length_append, List.length_cons, List.length_take,
        List.length_nil, hmin]
      omega

/-- Closed instance of C10: all four truncating writers applied to an
oversized all-ones slice of length 2^32. -/
theorem c10_raw_blob_writers_truncate_witness :
    LittleEndianBuffer.WriteBlob8 ⟨List.replicate 256 0, 0⟩ (List.replicate (2^32) 1) =
      ⟨(List.replicate 256 (0:Nat)).take 0 ++ 255 :: (List.replicate (2^32) 1).take 255 ++
          (List.replicate 256 (0:Nat)).drop 256, 256⟩ ∧
    LittleEndianBuffer.WriteBlob16 ⟨List.replicate 65537 0, 0⟩ (List.replicate (2^32) 1) =
      ⟨(List.replicate 65537 (0:Nat)).take 0 ++ 255 :: 255 ::
          (List.replicate (2^32) 1).take 65535 ++
          (List.replicate 65537 (0:Nat)).drop 65537, 65537⟩ ∧
    LittleEndianBuffer.WriteBlob24 ⟨List.replicate 16777218 0, 0⟩ (List.replicate (2^32) 1) =
      ⟨(List.replicate 16777218 (0:Nat)).take 0 ++ 255 :: 255 :: 255 ::
          (List.replicate (2^32) 1).take 16777215 ++
          (List.replicate 16777218 (0:Nat)).drop 16777218, 16777218⟩ ∧
    LittleEndianBuffer.WriteBlob32 ⟨List.replicate 4294967299 0, 0⟩ (List.replicate (2^32) 1) =
      ⟨(List.replicate 4294967299 (0:Nat)).take 0 ++ 255 :: 255 :: 255 :: 255 ::
          (List.replicate (2^32) 1).take 4294967295 ++
          (List.replicate 4294967299 (0:Nat)).drop 4294967299, 4294967299⟩ := by
  refine ⟨?_, ?_, ?_, ?_⟩
  · exact (c10_raw_blob_writers_truncate ⟨List.replicate 256 0, 0⟩
      (List.replicate (2^32) 1)).1 (by norm_num) (by norm_num)
  · exact (c10_raw_blob_writers_truncate ⟨List.replicate 65537 0, 0⟩
      (List.replicate (2^32) 1)).2.1 (by norm_num) (by norm_num)
  · exact (c10_raw_blob_writers_truncate ⟨List.replicate 16777218 0, 0⟩
      (List.replicate (2^32) 1)).2.2.1 (by norm_num) (by norm_num)
  · exact (c10_raw_blob_writers_truncate ⟨List.replicate 4294967299 0, 0⟩
      (List.replicate (2^32) 1)).2.2.2 (by norm_num) (by norm_num)

set_option maxHeartbeats 4000000 in
/-- C2: for every int64 value, the self-describing `WriteInt` emits
exactly the bytes described by the claim's ladder
(`specNarrowestIntBytes`): the narrowest TypeTag whose representable
range covers the value — widths tried in ascending order, signed
preferred over unsigned at each width, exhaustively terminating at the
signed 64-bit tag — followed by the value at the chosen width, 2 to 9
bytes in total. -/
theorem c2_writeInt_narrowest_tag (v : Int) (h1 : MinInt64 ≤ v) (h2 : v ≤ MaxInt64) :
    (LittleEndianBuffer.WriteInt ⟨[0, 0, 0, 0, 0, 0, 0, 0, 0], 0⟩ v).Bytes.take
        (LittleEndianBuffer.WriteInt ⟨[0, 0, 0, 0, 0, 0, 0, 0, 0], 0⟩ v).Pos =
      specNarrowestIntBytes v ∧
    2 ≤ (LittleEndianBuffer.WriteInt ⟨[0, 0, 0, 0, 0, 0, 0, 0, 0], 0⟩ v).Pos ∧
    (LittleEndianBuffer.WriteInt ⟨[0, 0, 0, 0, 0, 0, 0, 0, 0], 0⟩ v).Pos ≤ 9 := by
  rw [WriteInt_fresh]
  unfold specNarrowestIntBytes
  simp only [MinInt8, MaxInt8, MaxUint8, MinInt16, MaxInt16, MaxUint16, MinInt24,
    MaxInt24, MaxUint24, MinInt32, MaxInt32, MaxUint32, MinInt40, MaxInt40,
    MaxUint40, MinInt48, MaxInt48, MaxUint48, MinInt56, MaxInt56, MaxUint56,
    MinInt64, MaxInt64] at h1 h2 ⊢
  push_cast at h1 h2 ⊢
  by_cases c1 : (-128 : Int) ≤ v ∧ v ≤ 255
  · rw [if_pos c1]
    by_cases g : v > 127
    · rw [if_pos g, if_neg (show ¬((-128 : Int) ≤ v ∧ v ≤ 127) by omega),
        if_pos (show (0 : Int) ≤ v ∧ v ≤ 255 by omega)]
      exact ⟨by norm_num [leBytes, List.take]; try omega, by norm_num, by norm_num⟩
    · rw [if_neg g, if_pos (show (-128 : Int) ≤ v ∧ v ≤ 127 by omega)]
      exact ⟨by norm_num [leBytes, List.take]; try omega, by norm_num, by norm_num⟩
  · rw [if_neg c1]
    by_cases c2 : (-32768 : Int) ≤ v ∧ v ≤ 65535
    · rw [if_pos c2]
      by_cases g : v > 32767
      · rw [if_pos g, if_neg (show ¬((-128 : Int) ≤ v ∧ v ≤ 127) by omega),
          if_neg (show ¬((0 : Int) ≤ v ∧ v ≤ 255) by omega),
          if_neg (show ¬((-32768 : Int) ≤ v ∧ v ≤ 32767) by omega),
          if_pos (show (0 : Int) ≤ v ∧ v ≤ 65535 by omega)]
        exact ⟨by norm_num [leBytes, List.take]; try omega, by norm_num, by norm_num⟩
      · rw [if_neg g, if_neg (show ¬((-128 : Int) ≤ v ∧ v ≤ 127) by omega),
          if_neg (show ¬((0 : Int) ≤ v ∧ v ≤ 255) by omega),
          if_pos (show (-32768 : Int) ≤ v ∧ v ≤ 32767 by omega)]
        exact ⟨by norm_num [leBytes, List.take]; try omega, by norm_num, by norm_num⟩
    · rw [if_neg c2]
      by_cases c3 : (-8388608 : Int) ≤ v ∧ v ≤ 16777215
      · rw [if_pos c3]
        by_cases g : v > 8388607
        · rw [if_pos g, if_neg (show ¬((-128 : Int) ≤ v ∧ v ≤ 127) by omega),
            if_neg (show ¬((0 : Int) ≤ v ∧ v ≤ 255) by omega),
            if_neg (show ¬((-32768 : Int) ≤ v ∧ v ≤ 32767) by omega),
            if_neg (show ¬((0 : Int) ≤ v ∧ v ≤ 65535) by omega),
            if_neg (show ¬((-8388608 : Int) ≤ v ∧ v ≤ 8388607) by omega),
            if_pos (show (0 : Int) ≤ v ∧ v ≤ 16777215 by omega)]
          exact ⟨by norm_num [leBytes, List.take]; try omega, by norm_num, by norm_num⟩
        · rw [if_neg g, if_neg (show ¬((-128 : Int) ≤ v ∧ v ≤ 127) by omega),
            if_neg (show ¬((0 : Int) ≤ v ∧ v ≤ 255) by omega),
            if_neg (show ¬((-32768 : Int) ≤ v ∧ v ≤ 32767) by omega),
            if_neg (show ¬((0 : Int) ≤ v ∧ v ≤ 65535) by omega),
            if_pos (show (-8388608 : Int) ≤ v ∧ v ≤ 8388607 by omega)]
          exact ⟨by norm_num [leBytes, List.take]; try omega, by norm_num, by norm_num⟩
      · rw [if_neg c3]
        by_cases c4 : (-2147483648 : Int) ≤ v ∧ v ≤ 4294967295
        · rw [if_pos c4]
          by_cases g : v > 2147483647
          · rw [if_pos g, if_neg (show ¬((-128 : Int) ≤ v ∧ v ≤ 127) by omega),
              if_neg (show ¬((0 : Int) ≤ v ∧ v ≤ 255) by omega),
              if_neg (show ¬((-32768 : Int) ≤ v ∧ v ≤ 32767) by omega),
              if_neg (show ¬((0 : Int) ≤ v ∧ v ≤ 65535) by omega),
              if_neg (show ¬((-8388608 : Int) ≤ v ∧ v ≤ 8388607) by omega),
              if_neg (show ¬((0 : Int) ≤ v ∧ v ≤ 16777215) by omega),
              if_neg (show ¬((-2147483648 : Int) ≤ v ∧ v ≤ 2147483647) by omega),
              if_pos (show (0 : Int) ≤ v ∧ v ≤ 4294967295 by omega)]
            exact ⟨by norm_num [leBytes, List.take]; try omega, by norm_num, by norm_num⟩
          · rw [if_neg g, if_neg (show ¬((-128 : Int) ≤ v ∧ v ≤ 127) by omega),
              if_neg (show ¬((0 : Int) ≤ v ∧ v ≤ 255) by omega),
              if_neg (show ¬((-32768 : Int) ≤ v ∧ v ≤ 32767) by omega),
              if_neg (show ¬((0 : Int) ≤ v ∧ v ≤ 65535) by omega),
              if_neg (show ¬((-8388608 : Int) ≤ v ∧ v ≤ 8388607) by omega),
              if_neg (show ¬((0 : Int) ≤ v ∧ v ≤ 16777215) by omega),
              if_pos (show (-2147483648 : Int) ≤ v ∧ v ≤ 2147483647 by omega)]
            exact ⟨by norm_num [leBytes, List.take]; try omega, by norm_num, by norm_num⟩
        · rw [if_neg c4]
          by_cases c5 : (-549755813888 : Int) ≤ v ∧ v ≤ 1099511627775
          · rw [if_pos c5]
            by_cases g : v > 549755813887
            · rw [if_pos g, if_neg (show ¬((-128 : Int) ≤ v ∧ v ≤ 127) by omega),
                if_neg (show ¬((0 : Int) ≤ v ∧ v ≤ 255) by omega),
                if_neg (show ¬((-32768 : Int) ≤ v ∧ v ≤ 32767) by omega),
                if_neg (show ¬((0 : Int) ≤ v ∧ v ≤ 65535) by omega),
                if_neg (show ¬((-8388608 : Int) ≤ v ∧ v ≤ 8388607) by omega),
                if_neg (show ¬((0 : Int) ≤ v ∧ v ≤ 16777215) by omega),
                if_neg (show ¬((-2147483648 : Int) ≤ v ∧ v ≤ 2147483647) by omega),
                if_neg (show ¬((0 : Int) ≤ v ∧ v ≤ 4294967295) by omega),
                if_neg (show ¬((-549755813888 : Int) ≤ v ∧ v ≤ 549755813887) by omega),
                if_pos (show (0 : Int) ≤ v ∧ v ≤ 1099511627775 by omega)]
              exact ⟨by norm_num [leBytes, List.take]; try omega, by norm_num, by norm_num⟩
            · rw [if_neg g, if_neg (show ¬((-128 : Int) ≤ v ∧ v ≤ 127) by omega),
                if_neg (show ¬((0 : Int) ≤ v ∧ v ≤ 255) by omega),
                if_neg (show ¬((-32768 : Int) ≤ v ∧ v ≤ 32767) by omega),
                if_neg (show ¬((0 : Int) ≤ v ∧ v ≤ 65535) by omega),
                if_neg (show ¬((-8388608 : Int) ≤ v ∧ v ≤ 8388607) by omega),
                if_neg (show ¬((0 : Int) ≤ v ∧ v ≤ 16777215) by omega),
                if_neg (show ¬((-2147483648 : Int) ≤ v ∧ v ≤ 2147483647) by omega),
                if_neg (show ¬((0 : Int) ≤ v ∧ v ≤ 4294967295) by omega),
                if_pos (show (-549755813888 : Int) ≤ v ∧ v ≤ 549755813887 by omega)]
              exact ⟨by norm_num [leBytes, List.take]; try omega, by norm_num, by norm_num⟩
          · rw [if_neg c5]
            by_cases c6 : (-140737488355328 : Int) ≤ v ∧ v ≤ 281474976710655
            · rw [if_pos c6]
              by_cases g : v > 140737488355327
              · rw [if_pos g, if_neg (show ¬((-128 : Int) ≤ v ∧ v ≤ 127) by omega),
                  if_neg (show ¬((0 : Int) ≤ v ∧ v ≤ 255) by omega),
                  if_neg (show ¬((-32768 : Int) ≤ v ∧ v ≤ 32767) by omega),
                  if_neg (show ¬((0 : Int) ≤ v ∧ v ≤ 65535) by omega),
                  if_neg (show ¬((-8388608 : Int) ≤ v ∧ v ≤ 8388607) by omega),
                  if_neg (show ¬((0 : Int) ≤ v ∧ v ≤ 16777215) by omega),
                  if_neg (show ¬((-2147483648 : Int) ≤ v ∧ v ≤ 2147483647) by omega),
                  if_neg (show ¬((0 : Int) ≤ v ∧ v ≤ 4294967295) by omega),
                  if_neg (show ¬((-549755813888 : Int) ≤ v ∧ v ≤ 549755813887) by omega),
                  if_neg (show ¬((0 : Int) ≤ v ∧ v ≤ 1099511627775) by omega),
                  if_neg (show ¬((-140737488355328 : Int) ≤ v ∧ v ≤ 140737488355327) by omega),
                  if_pos (show (0 : Int) ≤ v ∧ v ≤ 281474976710655 by omega)]
                exact ⟨by norm_num [leBytes, List.take]; try omega, by norm_num, by norm_num⟩
              · rw [if_neg g, if_neg (show ¬((-128 : Int) ≤ v ∧ v ≤ 127) by omega),
                  if_neg (show ¬((0 : Int) ≤ v ∧ v ≤ 255) by omega),
                  if_neg (show ¬((-32768 : Int) ≤ v ∧ v ≤ 32767) by omega),
                  if_neg (show ¬((0 : Int) ≤ v ∧ v ≤ 65535) by omega),
                  if_neg (show ¬((-8388608 : Int) ≤ v ∧ v ≤ 8388607) by omega),
                  if_neg (show ¬((0 : Int) ≤ v ∧ v ≤ 16777215) by omega),
                  if_neg (show ¬((-2147483648 : Int) ≤ v ∧ v ≤ 2147483647) by omega),
                  if_neg (show ¬((0 : Int) ≤ v ∧ v ≤ 4294967295) by omega),
                  if_neg (show ¬((-549755813888 : Int) ≤ v ∧ v ≤ 549755813887) by omega),
                  if_neg (show ¬((0 : Int) ≤ v ∧ v ≤ 1099511627775) by omega),
                  if_pos (show (-140737488355328 : Int) ≤ v ∧ v ≤ 140737488355327 by omega)]
                exact ⟨by norm_num [leBytes, List.take]; try omega, by norm_num, by norm_num⟩
            · rw [if_neg c6]
              by_cases c7 : (-36028797018963968 : Int) ≤ v ∧ v ≤ 72057594037927935
              · rw [if_pos c7]
                by_cases g : v > 36028797018963967
                · rw [if_pos g, if_neg (show ¬((-128 : Int) ≤ v ∧ v ≤ 127) by omega),
                    if_neg (show ¬((0 : Int) ≤ v ∧ v ≤ 255) by omega),
                    if_neg (show ¬((-32768 : Int) ≤ v ∧ v ≤ 32767) by omega),
                    if_neg (show ¬((0 : Int) ≤ v ∧ v ≤ 65535) by omega),
                    if_neg (show ¬((-8388608 : Int) ≤ v ∧ v ≤ 8388607) by omega),
                    if_neg (show ¬((0 : Int) ≤ v ∧ v ≤ 16777215) by omega),
                    if_neg (show ¬((-2147483648 : Int) ≤ v ∧ v ≤ 2147483647) by omega),
                    if_neg (show ¬((0 : Int) ≤ v ∧ v ≤ 4294967295) by omega),
                    if_neg (show ¬((-549755813888 : Int) ≤ v ∧ v ≤ 549755813887) by omega),
                    if_neg (show ¬((0 : Int) ≤ v ∧ v ≤ 1099511627775) by omega),
                    if_neg (show ¬((-140737488355328 : Int) ≤ v ∧ v ≤ 140737488355327) by omega),
                    if_neg (show ¬((0 : Int) ≤ v ∧ v ≤ 281474976710655) by omega),
                    if_neg (show ¬((-36028797018963968 : Int) ≤ v ∧ v ≤ 36028797018963967) by omega),
                    if_pos (show (0 : Int) ≤ v ∧ v ≤ 72057594037927935 by omega)]
                  exact ⟨by norm_num [leBytes, List.take]; try omega, by norm_num, by norm_num⟩
                · rw [if_neg g, if_neg (show ¬((-128 : Int) ≤ v ∧ v ≤ 127) by omega),
                    if_neg (show ¬((0 : Int) ≤ v ∧ v ≤ 255) by omega),
                    if_neg (show ¬((-32768 : Int) ≤ v ∧ v ≤ 32767) by omega),
                    if_neg (show ¬((0 : Int) ≤ v ∧ v ≤ 65535) by omega),
                    if_neg (show ¬((-8388608 : Int) ≤ v ∧ v ≤ 8388607) by omega),
                    if_neg (show ¬((0 : Int) ≤ v ∧ v ≤ 16777215) by omega),
                    if_neg (show ¬((-2147483648 : Int) ≤ v ∧ v ≤ 2147483647) by omega),
                    if_neg (show ¬((0 : Int) ≤ v ∧ v ≤ 4294967295) by omega),
                    if_neg (show ¬((-549755813888 : Int) ≤ v ∧ v ≤ 549755813887) by omega),
                    if_neg (show ¬((0 : Int) ≤ v ∧ v ≤ 1099511627775) by omega),
                    if_neg (show ¬((-140737488355328 : Int) ≤ v ∧ v ≤ 140737488355327) by omega),
                    if_neg (show ¬((0 : Int) ≤ v ∧ v ≤ 281474976710655) by omega),
                    if_pos (show (-36028797018963968 : Int) ≤ v ∧ v ≤ 36028797018963967 by omega)]
                  exact ⟨by norm_num [leBytes, List.take]; try omega, by norm_num, by norm_num⟩
              · rw [if_neg c7,
                  if_neg (show ¬((-128 : Int) ≤ v ∧ v ≤ 127) by omega),
                  if_neg (show ¬((0 : Int) ≤ v ∧ v ≤ 255) by omega),
                  if_neg (show ¬((-32768 : Int) ≤ v ∧ v ≤ 32767) by omega),
                  if_neg (show ¬((0 : Int) ≤ v ∧ v ≤ 65535) by omega),
                  if_neg (show ¬((-8388608 : Int) ≤ v ∧ v ≤ 8388607) by omega),
                  if_neg (show ¬((0 : Int) ≤ v ∧ v ≤ 16777215) by omega),
                  if_neg (show ¬((-2147483648 : Int) ≤ v ∧ v ≤ 2147483647) by omega),
                  if_neg (show ¬((0 : Int) ≤ v ∧ v ≤ 4294967295) by omega),
                  if_neg (show ¬((-549755813888 : Int) ≤ v ∧ v ≤ 549755813887) by omega),
                  if_neg (show ¬((0 : Int) ≤ v ∧ v ≤ 1099511627775) by omega),
                  if_neg (show ¬((-140737488355328 : Int) ≤ v ∧ v ≤ 140737488355327) by omega),
                  if_neg (show ¬((0 : Int) ≤ v ∧ v ≤ 281474976710655) by omega),
                  if_neg (show ¬((-36028797018963968 : Int) ≤ v ∧ v ≤ 36028797018963967) by omega),
                  if_neg (show ¬((0 : Int) ≤ v ∧ v ≤ 72057594037927935) by omega),
                  if_pos (show (-9223372036854775808 : Int) ≤ v ∧ v ≤ 9223372036854775807 by omega)]
                exact ⟨by norm_num [leBytes, List.take]; try omega, by norm_num, by norm_num⟩

/-- Closed instance of C2: the value 300 is stored as an unsigned 16-bit
tagged value. -/
theorem c2_writeInt_narrowest_tag_witness :
    (LittleEndianBuffer.WriteInt ⟨[0, 0, 0, 0, 0, 0, 0, 0, 0], 0⟩ 300).Bytes.take
        (LittleEndianBuffer.WriteInt ⟨[0, 0, 0, 0, 0, 0, 0, 0, 0], 0⟩ 300).Pos =
      specNarrowestIntBytes 300 ∧
    2 ≤ (LittleEndianBuffer.WriteInt ⟨[0, 0, 0, 0, 0, 0, 0, 0, 0], 0⟩ 300).Pos ∧
    (LittleEndianBuffer.WriteInt ⟨[0, 0, 0, 0, 0, 0, 0, 0, 0], 0⟩ 300).Pos ≤ 9 :=
  c2_writeInt_narrowest_tag 300 (by norm_num) (by norm_num)

/-- C4, evaluated at the failing input: with `failOnError` set and an
error already recorded, the gated operations (here `ReadUint8`) are
no-ops, but `Decoder.ReadFull` has no `quickFail` gate: it still issues a
read to the underlying source (the pending input byte is consumed) and
returns 1, not the zero value — contradicting the decoder's own doc
comment ("no more reads will be issued to the wrapped reader") and the
claim.  The first recorded error itself is preserved. -/
theorem c4_readFull_ignores_sticky_error :
    (Decoder.quickFail ⟨List.replicate 8 0, [7], some (.ioFailure 1), true⟩ = true) ∧
    (Decoder.ReadFull ⟨List.replicate 8 0, [7], some (.ioFailure 1), true⟩ 1 =
      (1, [7], ⟨List.replicate 8 0, [], some (.ioFailure 1), true⟩)) ∧
    (Decoder.ReadUint8 ⟨List.replicate 8 0, [7], some (.ioFailure 1), true⟩ =
      (0, ⟨List.replicate 8 0, [7], some (.ioFailure 1), true⟩)) ∧
    (1 : Nat) ≠ 0 := by
  decide

/-- C6, evaluated at the failing input: the Encoder's `WriteInt40` emits
the five little-endian bytes of 2^32, but the Decoder's `ReadInt40` —
whose body is `int64(r.ReadUint32(order))` — reads only four bytes,
returns 0 instead of 2^32, and leaves the fifth byte unconsumed.  The
48- and 56-bit readers share the same copy-paste defect, and `ReadInt24`
additionally fails to sign-extend. -/
theorem c6_readInt40_reads_four_bytes :
    ((Encoder.NewEncoder [] true).WriteInt40 .LittleEndian (2^32)).sinkWrites =
      [[0, 0, 0, 0, 1]] ∧
    ((Decoder.NewDecoder [0, 0, 0, 0, 1] true).ReadInt40 .LittleEndian).1 = 0 ∧
    ((Decoder.NewDecoder [0, 0, 0, 0, 1] true).ReadInt40 .LittleEndian).2.input = [1] ∧
    (0 : Int) ≠ 2^32 := by
  decide

/-- C7, evaluated at the failing input: after `WriteString` of the bytes
"ab" and a correctly positioned `ReadString` with a 4-byte scratch
buffer, the decoded length (2) and the scratch buffer contents ("ab")
are exactly the written string — these are the well-defined components;
the value the Go function actually returns is
`*(*string)(unsafe.Pointer(&vLen))`, a string header fabricated from the
address of the local `int` variable `vLen` instead of the scratch
buffer. -/
theorem c7_readString_scratch_content :
    (LittleEndianBuffer.WriteString ⟨List.replicate 8 0, 0⟩ [97, 98]).Bytes =
      [TString8, 2, 97, 98, 0, 0, 0, 0] ∧
    (LittleEndianBuffer.WriteString ⟨List.replicate 8 0, 0⟩ [97, 98]).Pos = 4 ∧
    LittleEndianBuffer.ReadString ⟨[TString8, 2, 97, 98, 0, 0, 0, 0], 0⟩
        (List.replicate 4 0) =
      some (2, [97, 98, 0, 0], ⟨[TString8, 2, 97, 98, 0, 0, 0, 0], 4⟩) ∧
    [97, 98, 0, 0].take 2 = [97, 98] := by
  decide

/-- Effect of `Encoder.WriteBlob` in the I24 class on a fresh encoder
when the payload length is exactly 2^32: the `uint32(len(v))` truncation
makes the overflow guard see 0, so no error is recorded and a zero
3-byte prefix plus the whole payload are written.  Stated for an
arbitrary payload of that length so that no 2^32-element list is ever
evaluated. -/
theorem writeBlob_I24_truncated_guard (v : List Nat) (h : v.length = 2^32) :
    (Encoder.NewEncoder [] true).WriteBlob .LittleEndian .I24 v =
      ⟨List.replicate 10 0, [], [[0, 0, 0], v], none, true⟩ := by
  have hq : ((Encoder.NewEncoder [] true).quickFail = true) = False := by
    simp [Encoder.NewEncoder, Encoder.quickFail]
  unfold Encoder.WriteBlob
  rw [if_neg (hq ▸ id)]
  show (if v.length % 2^32 > MaxUint24 then _
    else (((Encoder.NewEncoder [] true).WriteUint24 .LittleEndian
      (v.length % 2^32)).WriteSlice v).2) = _
  rw [h]
  rw [if_neg (by norm_num [MaxUint24])]
  have h24 : (Encoder.NewEncoder [] true).WriteUint24 .LittleEndian (2^32 % 2^32) =
      ⟨List.replicate 10 0, [], [[0, 0, 0]], none, true⟩ := by decide
  rw [h24]
  unfold Encoder.WriteSlice
  have hq2 : ((⟨List.replicate 10 0, [], [[0, 0, 0]], none, true⟩ :
      Encoder).quickFail = true) = False := by
    simp [Encoder.quickFail]
  rw [if_neg (hq2 ▸ id)]
  simp [Encoder.noteErr]

set_option maxRecDepth 8000 in
/-- C5: in the 1-byte-prefix class the Encoder's `WriteBlob` rejects a
256-byte payload with IntegerOverflow(256, 255) and issues no write to
the sink — but the claim's universal statement fails in the 3-byte
class: the guard truncates the length through `uint32(len(v))`, so a
payload of 2^32 bytes records no error at all and a zero length prefix
plus the whole payload are written. -/
theorem c5_writeBlob_overflow :
    ((Encoder.NewEncoder [] true).WriteBlob .LittleEndian .I8
        (List.replicate 256 0)).firstErr = some (.integerOverflow 256 255) ∧
    ((Encoder.NewEncoder [] true).WriteBlob .LittleEndian .I8
        (List.replicate 256 0)).sinkWrites = [] ∧
    ((Encoder.NewEncoder [] true).WriteBlob .LittleEndian .I24
        (List.replicate (2^32) 0)).firstErr = none ∧
    ((Encoder.NewEncoder [] true).WriteBlob .LittleEndian .I24
        (List.replicate (2^32) 0)).sinkWrites =
      [[0, 0, 0], List.replicate (2^32) 0] := by
  have hkey := writeBlob_I24_truncated_guard (List.replicate (2^32) 0)
    (List.length_replicate _ _)
  exact ⟨by decide, by decide, by rw [hkey], by rw [hkey]⟩
